import Mathlib

/-!
Verification of the quiz_face_reg backend against its specification.

Each service function relevant to a claim is shallowly embedded as an
executable Lean definition translated from the Python source under
`src/app`.  Database sessions are made explicit: a query becomes a
function over an explicit list-based database state, a commit becomes a
state transition, and an exception becomes an `Except` value.  Python
`int` arithmetic is `Int`/`Nat`, Python `float` percentages become `Rat`
(the grading arithmetic `correct/total*100` is exact at the scale used),
and Python string truthiness (`if not s`) becomes an explicit emptiness
check.  Unhandled Python exceptions (an uncaught `TypeError`,
`ValueError` or `IndexError`, which the web framework surfaces as
Internal-Error) are a dedicated constructor, distinct from the
`HTTPException`s the services raise deliberately.
-/

/-- Python exceptions that escape the service code uncaught
(surfaced by the framework as a 500 Internal-Error response). -/
inductive PyExc where
  | typeError
  | valueError (msg : String)
  | indexError
deriving DecidableEq, Repr

/-- The `fastapi.HTTPException`s raised by the services, by status code. -/
inductive HttpErr where
  | badRequest (detail : String)
  | unauthorized (detail : String)
  | notFound (detail : String)
  | conflict (detail : String)
  | internalError (detail : String)
deriving DecidableEq, Repr

/-! ## Quiz module data model (src/app/models, src/app/modules/quiz/schemas.py) -/

/-- A `Question` row (src/app/models/questions.py): the four options and
the quiz it belongs to.  `option_a` is the de-facto answer key. -/
structure Question where
  id : Nat
  text : String
  option_a : String
  option_b : String
  option_c : String
  option_d : String
deriving DecidableEq, Repr

/-- A `Quiz` row (src/app/models/quiz.py), loaded together with its
questions (`selectinload(Quiz.questions)`). -/
structure Quiz where
  id : Nat
  name : String
  quiz_number : Nat
  during : Nat
  pin : String
  questions : List Question
deriving DecidableEq, Repr

/-- One submitted answer (`AnswerItem` in src/app/modules/quiz/schemas.py). -/
structure AnswerItem where
  question_id : Nat
  option : String
deriving DecidableEq, Repr

/-- The quiz-end submission body (`EndQuizCreate`). -/
structure EndQuizCreate where
  quiz_id : Nat
  answers : List AnswerItem
deriving DecidableEq, Repr

/-- The persisted `Result` row (src/app/models/results.py).
`incorrect_answers` is an `Int`: Python ints are unbounded and signed. -/
structure ResultRow where
  user_id : Nat
  quiz_id : Nat
  correct_answers : Nat
  incorrect_answers : Int
  total_questions : Nat
  score_percentage : Rat
  grade : String
deriving DecidableEq, Repr

/-- The response body (`QuizResultResponse`): like the row, but with
`score_percentage` rounded to 2 decimals. -/
structure QuizResultResponse where
  quiz_id : Nat
  total_questions : Nat
  correct_answers : Nat
  incorrect_answers : Int
  score_percentage : Rat
  grade : String
deriving DecidableEq, Repr

/-! ## Quiz grading (QuizService.end_quiz, src/app/modules/quiz/services.py) -/

/-- The dict comprehension `{q.id: q for q in quiz_data.questions}`
followed by `.get(i)`: on duplicate ids the later entry overwrites the
earlier one, so the fold keeps the last question with the given id. -/
def question_map_get (qs : List Question) (i : Nat) : Option Question :=
  qs.foldl (fun acc q => if q.id = i then some q else acc) none

/-- The per-answer test of `end_quiz`:
`if question and question.option_a == answer.option`. -/
def answer_is_correct (qs : List Question) (a : AnswerItem) : Bool :=
  match question_map_get qs a.question_id with
  | some q => q.option_a == a.option
  | none => false

/-- `QuizService._calculate_grade` (services.py lines 448-460). -/
def calculate_grade (score_percentage : Rat) : String :=
  if score_percentage ≥ 90 then "A+"
  else if score_percentage ≥ 80 then "A"
  else if score_percentage ≥ 70 then "B"
  else if score_percentage ≥ 60 then "C"
  else "F"

/-- Python `round(x, 2)`: round to 2 decimal places, ties to even
(banker's rounding, the documented behaviour of Python `round`). -/
def py_round2 (q : Rat) : Rat :=
  let x := q * 100
  let f : Int := Int.floor x
  let frac := x - (f : Rat)
  let n : Int :=
    if frac < 1/2 then f
    else if frac > 1/2 then f + 1
    else if f % 2 = 0 then f else f + 1
  (n : Rat) / 100

/-- Python `str.lower` on the ASCII strings these services compare
(role names, search strings): the per-character ASCII case mapping. -/
def py_lower_ascii (s : String) : String :=
  String.mk (s.toList.map Char.toLower)

/-- Python `user_role.lower() in {"admin", "student", "guest"}` test used
by both `start_quiz` and `end_quiz`. -/
def role_in_whitelist (user_role : String) : Bool :=
  py_lower_ascii user_role ∈ ["admin", "student", "guest"]

/-- `QuizService.end_quiz` (services.py lines 378-446).  The database
fetch of the quiz (with its questions) is the explicit argument `quiz?`;
the function returns the persisted `Result` row and the response, or the
`ValueError` the code raises for an invalid role / unknown quiz. -/
def end_quiz (user_id : Nat) (user_role : String) (data : EndQuizCreate)
    (quiz? : Option Quiz) : Except PyExc (ResultRow × QuizResultResponse) :=
  if ¬ role_in_whitelist user_role then
    .error (.valueError ("Foydalanuvchi roli noto'g'ri: " ++ user_role))
  else
    match quiz? with
    | none =>
        .error (.valueError ("ID-si " ++ toString data.quiz_id ++ " bo'lgan test topilmadi"))
    | some quiz_data =>
        let correct_count : Nat := data.answers.countP (answer_is_correct quiz_data.questions)
        let total_questions : Nat := quiz_data.questions.length
        let incorrect_count : Int := (total_questions : Int) - (correct_count : Int)
        let score_percentage : Rat :=
          if total_questions > 0 then (correct_count : Rat) / (total_questions : Rat) * 100 else 0
        let grade := calculate_grade score_percentage
        .ok (⟨user_id, data.quiz_id, correct_count, incorrect_count,
              total_questions, score_percentage, grade⟩,
             ⟨data.quiz_id, total_questions, correct_count, incorrect_count,
              py_round2 score_percentage, grade⟩)

/-! ## Quiz start and face verification
(QuizService.start_quiz / get_user_and_check, src/app/modules/quiz/services.py;
compare_faces, src/app/modules/quiz/utils/compare_faces.py) -/

/-- A `User` row (src/app/models/user.py); `roles` is the loaded
many-to-many relationship, in list order. -/
structure RoleRow where
  id : Nat
  name : String
deriving DecidableEq, Repr

/-- A `User` row (src/app/models/user.py).  `image` is nullable. -/
structure UserRow where
  id : Nat
  username : String
  password : String
  image : Option String
  roles : List RoleRow
deriving DecidableEq, Repr

/-- Python truthiness of the nullable string column `user_data.image`:
`if not user_data.image` is true for NULL and for the empty string. -/
def py_str_falsy : Option String → Bool
  | none => true
  | some s => s.isEmpty

/-- The possible outcomes of one call to the third-party
`compare_faces` utility: a boolean verdict, or one of the two
exceptions it raises (`FileNotFoundError` when the stored reference
path does not resolve, `ValueError` when an image has no detectable
face).  The actual image computation is outside the embedding; the
outcome is an explicit argument of `start_quiz`. -/
inductive FaceCmp where
  | isMatch
  | noMatch
  | fileNotFound
  | noFaceDetected
deriving DecidableEq, Repr

/-- What a quiz-start request produces: a deliberate `HTTPException`,
an uncaught Python exception, or the success payload. -/
inductive StartOutcome where
  | http (e : HttpErr)
  | unhandled (e : PyExc)
  | ok (quiz_id : Nat) (quiz_name : String) (quiz_number : Nat)
       (duration : Nat) (total_questions : Nat)
deriving DecidableEq, Repr

/-- `QuizService.get_user_and_check` (services.py lines 462-503): looks
the user up, Not-Found if absent, Bad-Request if the stored reference
image is missing/empty, then calls `compare_faces` and maps a negative
verdict to Unauthorized.  Returns the error (if any) paired with
whether `compare_faces` was invoked. -/
def get_user_and_check (user? : Option UserRow) (user_id : Nat) (cmp : FaceCmp) :
    Option (HttpErr ⊕ PyExc) × Bool :=
  match user? with
  | none =>
      (some (.inl (.notFound ("ID-si " ++ toString user_id ++ " bo'lgan foydalanuvchi topilmadi"))), false)
  | some user_data =>
      if py_str_falsy user_data.image then
        (some (.inl (.badRequest "Foydalanuvchining bazada tekshirish uchun rasmi mavjud emas")), false)
      else
        match cmp with
        | .fileNotFound => (some (.inr (.valueError "FileNotFoundError")), true)
        | .noFaceDetected => (some (.inr (.valueError "No face detected")), true)
        | .noMatch =>
            (some (.inl (.unauthorized "Foydalanuvchi yuzi bazadagi rasmga mos kelmadi")), true)
        | .isMatch => (none, true)

/-- `QuizService.start_quiz` (services.py lines 311-376).  The two
database fetches (the caller's `User` row and the quiz with its
questions) and the face-comparison verdict are explicit arguments.  The
success payload carries the quiz metadata; the shuffled question list is
omitted from the payload (its order is random at runtime and no claim
concerns it).  The second component reports whether the face-comparison
library was invoked. -/
def start_quiz (user_id : Nat) (user_role : String) (quiz_id : Nat) (pin : String)
    (user? : Option UserRow) (quiz? : Option Quiz) (cmp : FaceCmp) :
    StartOutcome × Bool :=
  if ¬ role_in_whitelist user_role then
    (.http (.badRequest ("Foydalanuvchi roli noto'g'ri: " ++ user_role)), false)
  else
    match get_user_and_check user? user_id cmp with
    | (some (.inl e), invoked) => (.http e, invoked)
    | (some (.inr e), invoked) => (.unhandled e, invoked)
    | (none, invoked) =>
        match quiz? with
        | none =>
            (.http (.notFound ("ID-si " ++ toString quiz_id ++ " bo'lgan test topilmadi")), invoked)
        | some quiz_data =>
            if quiz_data.pin ≠ pin then
              (.http (.unauthorized "Ushbu test uchun kiritilgan PIN-kod noto'g'ri"), invoked)
            else
              (.ok quiz_data.id quiz_data.name quiz_data.quiz_number
                   quiz_data.during quiz_data.questions.length, invoked)

/-! ## Current-user resolution (get_current_user, src/app/core/utils/dependencies.py) -/

/-- The decoded JWT payload as the code reads it: `payload.get("sub")`
is `None` when the claim is absent. -/
structure JwtPayload where
  sub : Option String
deriving DecidableEq, Repr

/-- The outcome of `jwt.decode`: an `InvalidTokenError` (bad signature,
expiry, malformed token) or a payload. -/
inductive DecodeResult where
  | invalidToken
  | ok (payload : JwtPayload)
deriving DecidableEq, Repr

/-- What current-user resolution produces: a 401 `HTTPException`, the
resolved user, or an uncaught Python exception (surfaced as a 500). -/
inductive AuthOutcome where
  | http401 (detail : String)
  | ok (user : UserRow)
  | unhandled (e : PyExc)
deriving DecidableEq, Repr

/-- Decimal digit accumulation for `int(...)`. -/
def py_digits_to_nat? (cs : List Char) : Option Nat :=
  cs.foldl
    (fun acc c =>
      match acc with
      | none => none
      | some n => if c.isDigit then some (n * 10 + (c.toNat - 48)) else none)
    (some 0)

/-- Python `int(s)` on a string: an optional minus sign followed by
decimal digits (surrounding whitespace/underscore forms are not needed
here); `none` models the `ValueError` on anything else. -/
def py_str_to_int? (s : String) : Option Int :=
  match s.toList with
  | [] => none
  | c :: rest =>
      if c = Char.ofNat 45 then
        match rest with
        | [] => none
        | _ => (py_digits_to_nat? rest).map (fun n => -(n : Int))
      else (py_digits_to_nat? (c :: rest)).map (fun n => (n : Int))

/-- Python `int(payload.get("sub"))`: `int(None)` raises `TypeError`,
`int` of a non-numeric string raises `ValueError`; neither is an
`InvalidTokenError`, so neither is caught by the `except` clause. -/
def py_int_of_sub : Option String → Except PyExc Int
  | none => .error .typeError
  | some s =>
      match py_str_to_int? s with
      | some n => .ok n
      | none => .error (.valueError ("invalid literal for int: " ++ s))

/-- The `Bearer ` header strip at the top of `get_current_user`. -/
def strip_bearer (token : String) : String :=
  if token.startsWith "Bearer " then token.drop 7 else token

/-- `get_current_user` (dependencies.py lines 32-99).  `decode` is the
`jwt.decode` call on the stripped token; `lookup` is the eager user
query by id.  Note the source computes `int(payload.get("sub"))`
*before* its `if not user_id` check, so a payload without `sub` raises
an uncaught `TypeError` instead of reaching the 401 branch. -/
def get_current_user (token : String) (decode : String → DecodeResult)
    (lookup : Int → Option UserRow) : AuthOutcome :=
  let token := strip_bearer token
  match decode token with
  | .invalidToken => .http401 "Invalid or expired token"
  | .ok payload =>
      match py_int_of_sub payload.sub with
      | .error e => .unhandled e
      | .ok user_id =>
          if user_id = 0 then .http401 "Invalid token payload"
          else
            match lookup user_id with
            | none => .http401 "User not found"
            | some user_data => .ok user_data

/-! ## Generic paginated listing with search
(get_all, src/app/core/mixins/crud.py; Pagination, src/app/core/schemas/pagination.py;
RoleServices.get_all_roles, src/app/modules/role/services.py;
UserServices.get_all_users, src/app/modules/user/services.py) -/

/-- The `Pagination` request object: `page ≥ 1`, `limit` in `[1,100]`
(enforced by the schema layer), optional `search`. -/
structure Pagination where
  page : Nat
  limit : Nat
  search : Option String
deriving DecidableEq, Repr

/-- `Pagination.offset = (page - 1) * limit`. -/
def Pagination.offset (p : Pagination) : Nat := (p.page - 1) * p.limit

/-- Python truthiness of `pagination.search`: `None` and `""` are falsy. -/
def py_search_truthy : Option String → Bool
  | none => false
  | some s => ¬ s.isEmpty

/-- SQL `column ILIKE '%search%'`: case-insensitive substring containment
(ASCII case folding via `String.toLower`). -/
def sql_ilike_contains (search col : String) : Bool :=
  decide ((py_lower_ascii search).toList <:+: (py_lower_ascii col).toList)

/-- The paginated envelope `get_all` returns. -/
structure PaginatedResult (α : Type) where
  items : List α
  total : Nat
  page : Nat
  limit : Nat
  total_pages : Nat
deriving DecidableEq, Repr

/-- `crud.get_all` (crud.py lines 35-88), generic over the model.
`search_columns` is the sequence Python's `for col_name in search_columns`
iterates — the call sites pass a *string*, so iteration yields its
characters.  `hasattr` is attribute existence on the model class and
`getCol` the column accessor used to build the `ILIKE` filters. -/
def crud_get_all {α : Type} (rows : List α) (pagination : Pagination)
    (search_columns : List String) (hasattr : String → Bool)
    (getCol : String → α → String) : PaginatedResult α :=
  let query :=
    if py_search_truthy pagination.search ∧ search_columns ≠ [] then
      let search_filters := search_columns.filter hasattr
      if search_filters ≠ [] then
        rows.filter (fun row =>
          search_filters.any (fun c =>
            sql_ilike_contains (pagination.search.getD "") (getCol c row)))
      else rows
    else rows
  let total := query.length
  let items := (query.drop pagination.offset).take pagination.limit
  let total_pages := if total > 0 then (total + pagination.limit - 1) / pagination.limit else 0
  ⟨items, total, pagination.page, pagination.limit, total_pages⟩

/-- Python iteration over a string yields its single-character strings:
the value `search_columns="name"` at the call site becomes
`["n", "a", "m", "e"]` inside `get_all`'s `for` loop. -/
def py_str_iter (s : String) : List String :=
  s.toList.map (fun c => String.singleton c)

/-- `hasattr(Role, ·)` over the `Role` mapped class
(src/app/models/role.py with its id/timestamp mixins). -/
def role_hasattr (a : String) : Bool :=
  a ∈ ["id", "created_at", "updated_at", "name", "users", "permissions"]

/-- Column accessor for the one searchable string column of `Role`. -/
def role_getcol (a : String) (r : RoleRow) : String :=
  if a = "name" then r.name else ""

/-- `RoleServices.get_all_roles` (role/services.py lines 242-264): calls
`get_all` with `search_columns="name"` — a string, not a list. -/
def get_all_roles (roles : List RoleRow) (pagination : Pagination) :
    PaginatedResult RoleRow :=
  crud_get_all roles pagination (py_str_iter "name") role_hasattr role_getcol

/-- `hasattr(User, ·)` over the `User` mapped class
(src/app/models/user.py with its id/timestamp mixins). -/
def user_hasattr (a : String) : Bool :=
  a ∈ ["id", "created_at", "updated_at", "username", "password", "image",
       "roles", "quizzes", "results", "user_answers", "questions"]

/-- Column accessor for the searchable string columns of `User`. -/
def user_getcol (a : String) (u : UserRow) : String :=
  if a = "username" then u.username else ""

/-- `UserServices.get_all_users` (user/services.py lines 200-222): calls
`get_all` with `search_columns="username"` — a string, not a list. -/
def get_all_users (users : List UserRow) (pagination : Pagination) :
    PaginatedResult UserRow :=
  crud_get_all users pagination (py_str_iter "username") user_hasattr user_getcol

/-! ## Bulk spreadsheet import
(QuestionsService.create_questions_bulk_excel, src/app/modules/question/services.py) -/

/-- Python `str.strip()` on a cell value: drop leading and trailing
whitespace. -/
def py_trim (s : String) : String :=
  String.mk (((s.toList.dropWhile Char.isWhitespace).reverse.dropWhile
    Char.isWhitespace).reverse)

/-- One spreadsheet row: the mapping from column name to cell value;
an absent key is a NaN/missing cell (`dropna` drops on it). -/
abbrev XlsRow : Type := List (String × String)

/-- Cell lookup in a row. -/
def xls_cell (r : XlsRow) (c : String) : Option String :=
  (r.find? (fun p => p.1 == c)).map (fun p => p.2)

/-- The parsed spreadsheet: the header columns and the data rows in
sheet order (pandas assigns them the 0-based index `0, 1, 2, …`). -/
structure DataFrame where
  cols : List String
  rows : List XlsRow
deriving Repr

/-- The required columns of the bulk import. -/
def required_columns : List String :=
  ["text", "option_a", "option_b", "option_c", "option_d"]

/-- `[col for col in required_columns if col not in df.columns]`. -/
def bulk_missing_columns (df : DataFrame) : List String :=
  required_columns.filter (fun c => ¬ c ∈ df.cols)

/-- `df.dropna(subset=required_columns)`: the surviving rows, each
paired with its original 0-based pandas index (kept by `dropna` and
reported by `iterrows`). -/
def bulk_kept_rows (df : DataFrame) : List (Nat × XlsRow) :=
  df.rows.enum.filter (fun p => required_columns.all (fun c => (xls_cell p.2 c).isSome))

/-- A created-question record of the response: `{"id": …, "text": …}`. -/
structure CreatedQuestion where
  id : Nat
  text : String
deriving DecidableEq, Repr

/-- A failed-row record of the response:
`{"row": idx + 2, "text": row["text"], "error": …}`. -/
structure FailedQuestion where
  row : Nat
  text : Option String
  error : String
deriving DecidableEq, Repr

/-- The success response of the bulk import. -/
structure BulkReport where
  created_count : Nat
  failed_count : Nat
  created_questions : List CreatedQuestion
  failed_questions : Option (List FailedQuestion)
deriving DecidableEq, Repr

/-- One `create(session, model=Question, data=…)` outcome during the
bulk loop, indexed by the pandas row index: the new row id, or the
error message recorded for the failed row (`"Duplicate or invalid
data"` for an `IntegrityError`, `str(e)` otherwise). -/
abbrev CreateOutcome : Type := Nat → Except String Nat

/-- The row-by-row creation loop of `create_questions_bulk_excel`
(question/services.py lines 112-165), as a fold accumulating the
created and failed lists in order. -/
def bulk_process (create : CreateOutcome) (kept : List (Nat × XlsRow)) :
    List CreatedQuestion × List FailedQuestion :=
  kept.foldl
    (fun acc p =>
      match create p.1 with
      | .ok new_id =>
          (acc.1 ++ [⟨new_id, py_trim ((xls_cell p.2 "text").getD "")⟩], acc.2)
      | .error e =>
          (acc.1, acc.2 ++ [⟨p.1 + 2, xls_cell p.2 "text", e⟩]))
    ([], [])

/-- `QuestionsService.create_questions_bulk_excel` (question/services.py
lines 71-197).  The spreadsheet parse result is `df`; the per-row
database `create` outcome is the explicit `create` argument.  A
`Question` is persisted with `text=str(row["text"]).strip()` (modelled
by `py_trim`), and the created record echoes that stripped text. -/
def create_questions_bulk_excel (df : DataFrame) (create : CreateOutcome) :
    Except HttpErr BulkReport :=
  let missing_columns := bulk_missing_columns df
  if missing_columns ≠ [] then
    .error (.badRequest ("Missing required columns: " ++ String.intercalate ", " missing_columns
      ++ ". Required: " ++ String.intercalate ", " required_columns))
  else
    let kept := bulk_kept_rows df
    if kept = [] then
      .error (.badRequest "No valid questions found in the Excel file")
    else
      let processed := bulk_process create kept
      if processed.1 = [] then
        .error (.badRequest "Failed to create any questions from the Excel file")
      else
        .ok ⟨processed.1.length, processed.2.length, processed.1,
             if processed.2 = [] then none else some processed.2⟩

/-! ## Role-permission assignment
(RoleServices.assign_permissions_to_role / assign_permission_ids_to_role,
src/app/modules/role/services.py;
RolePermissionAssociation, src/app/models/association/role_permissions_association.py) -/

/-- The slice of database state these operations touch: the existing
role ids, permission ids, and the `role_permission_association` rows
(with their `UniqueConstraint("role_id", "permission_id")`). -/
structure RPDb where
  roles : List Nat
  perms : List Nat
  rolePerms : List (Nat × Nat)
deriving DecidableEq, Repr

/-- The constraint violations an `INSERT` into
`role_permission_association` can raise. -/
inductive RPDbErr where
  | uniqueViolation
  | fkRole
  | fkPermission
deriving DecidableEq, Repr

/-- `str(e.orig).lower()` for each violation, in Postgres's phrasing
(the services classify errors by substring-matching this text). -/
def rp_err_msg : RPDbErr → String
  | .uniqueViolation =>
      "duplicate key value violates unique constraint \"uq_role_permission\""
  | .fkRole =>
      "insert or update on table \"role_permission_association\" violates foreign key constraint \"fk_role_permission_association_role_id_roles\""
  | .fkPermission =>
      "insert or update on table \"role_permission_association\" violates foreign key constraint \"fk_role_permission_association_permission_id_permissions\""

/-- Python `needle in error_msg` substring test. -/
def py_contains (hay needle : String) : Bool :=
  decide (needle.toList <:+: hay.toList)

/-- One `INSERT` of a `(role_id, permission_id)` association row:
raises on a duplicate pair or a dangling foreign key, else adds the row. -/
def rp_insert (db : RPDb) (rid pid : Nat) : Except RPDbErr RPDb :=
  if (rid, pid) ∈ db.rolePerms then .error .uniqueViolation
  else if ¬ rid ∈ db.roles then .error .fkRole
  else if ¬ pid ∈ db.perms then .error .fkPermission
  else .ok { db with rolePerms := db.rolePerms ++ [(rid, pid)] }

/-- The flush of a bulk `session.add` loop at `commit()`: the pending
rows are inserted in order and the first violation aborts. -/
def rp_insert_all (db : RPDb) (pending : List (Nat × Nat)) : Except RPDbErr RPDb :=
  match pending with
  | [] => .ok db
  | p :: rest =>
      match rp_insert db p.1 p.2 with
      | .error e => .error e
      | .ok db1 => rp_insert_all db1 rest

/-- What a single-assignment request returns on success. -/
structure AssignOk where
  role_id : Nat
  permission_id : Nat
deriving DecidableEq, Repr

/-- `RoleServices.assign_permissions_to_role` (role/services.py lines
72-135), with the post-rollback database state.  The `IntegrityError`
handler inspects `str(e.orig).lower()`: a foreign-key message containing
`"role"` (or, failing that, `"permission"`) becomes 404, a
unique/duplicate message becomes 409, anything else 400.  When the
foreign-key branch matches but neither inner test does, the Python
`except` block falls through without raising, returning `None`: that
path is the `.ok none` case. -/
def assign_permissions_to_role (db : RPDb) (rid pid : Nat) :
    Except HttpErr (Option AssignOk) × RPDb :=
  match rp_insert db rid pid with
  | .ok db1 => (.ok (some ⟨rid, pid⟩), db1)
  | .error e =>
      let error_msg := rp_err_msg e
      if py_contains error_msg "foreign key constraint" ∨ py_contains error_msg "violates foreign key" then
        if py_contains error_msg "role" then
          (.error (.notFound ("Role not found: " ++ toString rid)), db)
        else if py_contains error_msg "permission" then
          (.error (.notFound ("Permission not found: " ++ toString pid)), db)
        else
          (.ok none, db)
      else if py_contains error_msg "unique constraint" ∨ py_contains error_msg "duplicate" then
        (.error (.conflict "Permission already assigned to this role"), db)
      else
        (.error (.badRequest "Failed to assign permission to role"), db)

/-- What a bulk-assignment request returns on success. -/
structure AssignBulkOk where
  role_id : Nat
  permission_ids : List Nat
deriving DecidableEq, Repr

/-- `RoleServices.assign_permission_ids_to_role` (role/services.py lines
137-222): adds one association row per requested permission id and
commits once; any violation rolls the whole transaction back.  On a
foreign-key message without `"role"` it re-checks each requested id
against the permission table to list the missing ones. -/
def assign_permission_ids_to_role (db : RPDb) (rid : Nat) (pids : List Nat) :
    Except HttpErr AssignBulkOk × RPDb :=
  match rp_insert_all db (pids.map (fun pid => (rid, pid))) with
  | .ok db1 => (.ok ⟨rid, pids⟩, db1)
  | .error e =>
      let error_msg := rp_err_msg e
      if py_contains error_msg "foreign key constraint" ∨ py_contains error_msg "violates foreign key" then
        if py_contains error_msg "role" then
          (.error (.notFound ("Role not found: " ++ toString rid)), db)
        else
          let missing_permissions := pids.filter (fun pid => ¬ pid ∈ db.perms)
          if missing_permissions ≠ [] then
            (.error (.notFound ("Permission(s) not found: " ++ toString missing_permissions)), db)
          else
            (.error (.notFound "One or more permissions not found"), db)
      else if py_contains error_msg "unique constraint" ∨ py_contains error_msg "duplicate" then
        (.error (.conflict "One or more permissions already assigned to this role"), db)
      else
        (.error (.badRequest "Failed to assign permissions to role"), db)

/-! ## Text normalization (normalize_str, src/app/core/utils/normalize_str.py)

The source leans on Python's Unicode database: `str.lower`,
`unicodedata.normalize("NFKD", ·)` with `unicodedata.combining`, the
regex classes `\w` and `\s`, and `str.strip`.  The embedding is
parameterized by those character tables (`UniTables`); the concrete
`uz_tables` instance below is the fragment of the real tables covering
ASCII and the characters the spec's examples use.  Case mapping is
modelled per character (Python's only contextual case rule, final
sigma, cannot affect a second, already-lowercased pass). -/

/-- The Unicode character tables `normalize_str` consumes.  `lower` and
`nfkd` return character sequences (a case mapping or a compatibility
decomposition can expand), `combining` is the canonical combining
class, `isWordChar`/`isSpaceChar` are the regex classes `\w`/`\s` (the
latter also serving for `str.strip`). -/
structure UniTables where
  lower : Char → List Char
  nfkd : Char → List Char
  combining : Char → Nat
  isWordChar : Char → Bool
  isSpaceChar : Char → Bool

/-- The ASCII apostrophe. -/
def apostrophe : Char := Char.ofNat 39

/-- `UZ_APOSTROPHES = "ʼʻ’‘`´"` (U+02BC, U+02BB, U+2019, U+2018,
U+0060, U+00B4). -/
def UZ_APOSTROPHES : List Char :=
  [Char.ofNat 0x02BC, Char.ofNat 0x02BB, Char.ofNat 0x2019,
   Char.ofNat 0x2018, Char.ofNat 0x60, Char.ofNat 0xB4]

/-- The `str.maketrans`/`translate` table mapping every apostrophe
variant to the ASCII apostrophe. -/
def apostrophe_translate (c : Char) : Char :=
  if c ∈ UZ_APOSTROPHES then apostrophe else c

/-- `text.lower()`, character by character. -/
def py_lower (t : UniTables) (l : List Char) : List Char :=
  l.flatMap t.lower

/-- `unicodedata.normalize("NFKD", text)` followed by dropping every
character with a nonzero combining class. -/
def nfkd_strip (t : UniTables) (l : List Char) : List Char :=
  (l.flatMap t.nfkd).filter (fun c => t.combining c = 0)

/-- One character of `_punct_re.sub(" ", text)`: a character that is
neither a word character, whitespace nor the apostrophe becomes a
space. -/
def punct_to_space (t : UniTables) (c : Char) : Char :=
  if t.isWordChar c || t.isSpaceChar c || c = apostrophe then c else ' '

/-- `_space_re.sub(" ", text)`: each maximal run of whitespace becomes
one space.  The flag records whether the previous character was part of
a run. -/
def collapse_spaces (t : UniTables) : Bool → List Char → List Char
  | _, [] => []
  | prevSpace, c :: rest =>
    if t.isSpaceChar c then
      if prevSpace then collapse_spaces t true rest
      else ' ' :: collapse_spaces t true rest
    else c :: collapse_spaces t false rest

/-- `text.strip()`: drop leading and trailing whitespace. -/
def py_strip (t : UniTables) (l : List Char) : List Char :=
  (((l.dropWhile t.isSpaceChar).reverse).dropWhile t.isSpaceChar).reverse

/-- `normalize_str` (normalize_str.py lines 15-64) on a character list:
lower-case and strip, NFKD-decompose and drop combining marks, map the
apostrophe variants to `'`, replace other punctuation by spaces,
collapse whitespace runs, strip.  (The non-string input branch returns
`""` and is outside this embedding's `String` domain.) -/
def normalize_chars (t : UniTables) (s : List Char) : List Char :=
  let s1 := py_strip t (py_lower t s)
  let s2 := nfkd_strip t s1
  let s3 := s2.map apostrophe_translate
  let s4 := s3.map (punct_to_space t)
  let s5 := collapse_spaces t false s4
  py_strip t s5

/-- `normalize_str` on `String`. -/
def normalize_str (t : UniTables) (s : String) : String :=
  String.mk (normalize_chars t s.toList)

/-- The `\s` class on the ASCII fragment. -/
def frag_is_space (c : Char) : Bool :=
  c = ' ' || c = Char.ofNat 9 || c = Char.ofNat 10 ||
  c = Char.ofNat 11 || c = Char.ofNat 12 || c = Char.ofNat 13

/-- The concrete fragment of the Unicode tables: the ASCII simple case
mapping (`Char.toLower`, which fixes every character of the strings
below that is not an ASCII capital — `‘` and `™` included), the real
compatibility decomposition of U+2122 TRADE MARK SIGN (`™ → TM`, with
no other decompositions or combining marks among the characters used),
`\w` as ASCII alphanumerics plus underscore, `\s` as ASCII
whitespace. -/
def uz_tables : UniTables where
  lower := fun c => [c.toLower]
  nfkd := fun c => if c = Char.ofNat 0x2122 then [Char.ofNat 84, Char.ofNat 77] else [c]
  combining := fun _ => 0
  isWordChar := fun c => c.isAlphanum || c = '_'
  isSpaceChar := frag_is_space

/-! ## Bootstrap seeding
(sync_permissions_to_db, src/app/core/utils/dependencies.py;
create_roles, src/app/core/utils/base_roles.py;
setup_admin_user, src/app/core/utils/assign_user_roles.py;
startup order from src/app/core/lifespan.py) -/

/-- The database state the startup sequence touches: `(id, username)`
users, `(id, name)` roles, `(user_id, role_id)` links, `(id, (resource,
action))` permissions, `(role_id, permission_id)` grants, and the next
fresh surrogate id. -/
structure BootDb where
  users : List (Nat × String)
  roles : List (Nat × String)
  userRoles : List (Nat × Nat)
  perms : List (Nat × (String × String))
  rolePerms : List (Nat × Nat)
  nextId : Nat
deriving DecidableEq, Repr

/-- The fixed role catalog `ROLE_LIST` (base_roles.py). -/
def ROLE_LIST : List String := ["admin", "user", "teacher", "student"]

/-- One iteration of `sync_permissions_to_db`'s loop: look the
`(resource, action)` pair up, create it only when absent. -/
def sync_step (db : BootDb) (p : String × String) : BootDb :=
  if db.perms.any (fun q => q.2 == p) then db
  else { db with perms := db.perms ++ [(db.nextId, p)], nextId := db.nextId + 1 }

/-- `sync_permissions_to_db` (dependencies.py lines 219-266): persists
every registered `(resource, action)` pair not already present.  `reg`
is the deterministic iteration order of the process-wide registry
(`sorted(REGISTERED_PERMISSIONS)` in the source). -/
def sync_permissions_to_db (reg : List (String × String)) (db : BootDb) : BootDb :=
  reg.foldl sync_step db

/-- One iteration of `create_roles`'s loop: create the role only when
no role of that name exists. -/
def create_role_step (db : BootDb) (role_name : String) : BootDb :=
  if db.roles.any (fun r => r.2 == role_name) then db
  else { db with roles := db.roles ++ [(db.nextId, role_name)], nextId := db.nextId + 1 }

/-- `create_roles` (base_roles.py lines 17-51). -/
def create_roles (db : BootDb) : BootDb :=
  ROLE_LIST.foldl create_role_step db

/-- `create_admin` (assign_user_roles.py lines 26-53): find the user by
the *raw* configured admin username; when absent, register one through
the auth registration path, whose `UserCreate` validator
(auth/schemas.py) stores `normalize_str(value.strip())` — the
*normalized* username.  When a user with that normalized name already
exists, the insert raises the uniqueness violation, `register_user`
re-raises it as Conflict and `create_admin` propagates it, aborting the
startup.  (`normalize_str` strips, so the validator's extra `.strip()`
is absorbed; the 3-50-length validation is outside the model.)  Returns
the admin user's id with the new state. -/
def create_admin (t : UniTables) (admin_username : String) (db : BootDb) :
    Except String (Nat × BootDb) :=
  match db.users.find? (fun p => p.2 == admin_username) with
  | some p => .ok (p.1, db)
  | none =>
      let nu := normalize_str t admin_username
      if db.users.any (fun p => p.2 == nu) then
        .error "Username already exists"
      else
        .ok (db.nextId, { db with users := db.users ++ [(db.nextId, nu)],
                                  nextId := db.nextId + 1 })

/-- `assign_user_role` (assign_user_roles.py lines 56-93): find the role
named by the configured admin role name (`ValueError` when absent),
then link the user to it unless the link already exists (the insert via
`UserServices.assign_role` succeeds: user and role were just checked).
Returns the admin role id. -/
def assign_user_role (admin_role_name : String) (db : BootDb) (user_id : Nat) :
    Except String (Nat × BootDb) :=
  match db.roles.find? (fun p => p.2 == admin_role_name) with
  | none => .error "Admin role not found"
  | some role =>
      if (user_id, role.1) ∈ db.userRoles then .ok (role.1, db)
      else .ok (role.1, { db with userRoles := db.userRoles ++ [(user_id, role.1)] })

/-- `assign_role_permissions` (assign_user_roles.py lines 96-135):
`ValueError` when the permission table is empty; otherwise grant the
role every permission id it does not hold yet, in one bulk insert (each
inserted pair is absent, so the bulk path commits). -/
def assign_role_permissions (db : BootDb) (role_id : Nat) : Except String BootDb :=
  if db.perms = [] then .error "No permissions found"
  else
    let existing := (db.rolePerms.filter (fun pr => pr.1 == role_id)).map (fun pr => pr.2)
    let permission_ids := (db.perms.map (fun p => p.1)).filter (fun pid => ¬ pid ∈ existing)
    if permission_ids = [] then .ok db
    else .ok { db with rolePerms := db.rolePerms ++ permission_ids.map (fun pid => (role_id, pid)) }

/-- The startup sequence of `lifespan` (lifespan.py lines 16-33) after
the cache connection: `sync_permissions_to_db`, then `create_roles`,
then `setup_admin_user` (= `create_admin`; `assign_user_role`;
`assign_role_permissions`).  An error in any step aborts startup.  The
character tables `t` feed the username normalization of the
registration path. -/
def startup (t : UniTables) (reg : List (String × String))
    (admin_username admin_role_name : String) (db : BootDb) : Except String BootDb :=
  let db1 := sync_permissions_to_db reg db
  let db2 := create_roles db1
  match create_admin t admin_username db2 with
  | .error e => .error e
  | .ok adm =>
      match assign_user_role admin_role_name adm.2 adm.1 with
      | .error e => .error e
      | .ok rdb => assign_role_permissions rdb.2 rdb.1

/-- The database well-formedness the schema's unique constraints
guarantee: unique usernames, unique role names, no duplicate user-role
link, no duplicate `(resource, action)` permission pair. -/
def BootDb.WF (db : BootDb) : Prop :=
  (db.users.map Prod.snd).Nodup ∧ (db.roles.map Prod.snd).Nodup ∧
  db.userRoles.Nodup ∧ (db.perms.map (fun p => p.2)).Nodup

instance (db : BootDb) : Decidable db.WF := by
  unfold BootDb.WF; infer_instance

/-! ## Login and token refresh (AuthService, src/app/modules/auth/services.py) -/

/-- The payload both token factories embed:
`{"sub": str(user.id), "role": str(user.roles[0].name)}`. -/
structure TokenPayload where
  sub : String
  role : String
deriving DecidableEq, Repr

/-- `UserLoginResponse`: the token pair.  Token encoding is opaque to
the embedding; a token is represented by the payload it signs. -/
structure UserLoginResponse where
  token_type : String
  access_token : TokenPayload
  refresh_token : TokenPayload
deriving DecidableEq, Repr

/-- What login / refresh produces: a 401, the token pair, or an
uncaught Python exception (`IndexError` from `user.roles[0]`,
`ValueError` from `int(user_id)`). -/
inductive LoginOutcome where
  | http401 (detail : String)
  | ok (resp : UserLoginResponse)
  | unhandled (e : PyExc)
deriving DecidableEq, Repr

/-- `AuthService.login_user` (auth/services.py lines 63-95).  `lookup`
is the username query, `verify` the password-hash check.  The payload
reads `user.roles[0]` unconditionally. -/
def login_user (username password : String) (lookup : String → Option UserRow)
    (verify : String → String → Bool) : LoginOutcome :=
  match lookup username with
  | none => .http401 "Invalid username or password"
  | some user =>
      if ¬ verify password user.password then
        .http401 "Invalid username or password"
      else
        match user.roles with
        | [] => .unhandled .indexError
        | r :: _ =>
            let payload : TokenPayload := ⟨toString user.id, r.name⟩
            .ok ⟨"Bearer", payload, payload⟩

/-- The decoded refresh-token payload (`payload.get("sub")`). -/
inductive RefreshDecode where
  | invalid
  | ok (sub : Option String)
deriving DecidableEq, Repr

/-- Python `int(user_id)` on the string subject of a refresh token:
raises `ValueError` when non-numeric (uncaught in the source — the
`try` only wraps the decode). -/
def py_int_str (s : String) : Except PyExc Int :=
  match py_str_to_int? s with
  | some n => .ok n
  | none => .error (.valueError ("invalid literal for int: " ++ s))

/-- `AuthService.refresh_token` (auth/services.py lines 113-159).
`decode` is `decode_refresh_token` (any exception becomes 401), the
`if not user_id` check precedes the `int` conversion here, and
`lookup` is `session.get(User, int(user_id))`. -/
def refresh_token (token : String) (decode : String → RefreshDecode)
    (lookup : Int → Option UserRow) : LoginOutcome :=
  match decode token with
  | .invalid => .http401 "Invalid or expired refresh token"
  | .ok sub? =>
      match sub? with
      | none => .http401 "Invalid token payload"
      | some user_id =>
          if user_id.isEmpty then .http401 "Invalid token payload"
          else
            match py_int_str user_id with
            | .error e => .unhandled e
            | .ok uid =>
                match lookup uid with
                | none => .http401 "User no longer exists"
                | some user =>
                    match user.roles with
                    | [] => .unhandled .indexError
                    | r :: _ =>
                        let payload : TokenPayload := ⟨toString user.id, r.name⟩
                        .ok ⟨"Bearer", payload, payload⟩

/-- The post-startup database shape: every registered permission pair
persisted, every catalog role present, the admin user found by the
configured username, the admin role found by the configured role name,
the user-role link present, and no admin-role permission grant missing.
`startup` reaches this state from a well-formed database and is the
identity on it. -/
def BootDb.Stable (reg : List (String × String)) (au arn : String) (d : BootDb) : Prop :=
  (∀ p ∈ reg, d.perms.any (fun e => e.2 == p) = true)
  ∧ (∀ n ∈ ROLE_LIST, d.roles.any (fun r => r.2 == n) = true)
  ∧ ∃ p r, d.users.find? (fun x => x.2 == au) = some p
      ∧ d.roles.find? (fun x => x.2 == arn) = some r
      ∧ (p.1, r.1) ∈ d.userRoles
      ∧ d.perms ≠ []
      ∧ (d.perms.map (fun e => e.1)).filter
          (fun pid => ¬ pid ∈ ((d.rolePerms.filter (fun pr => pr.1 == r.1)).map
            (fun pr => pr.2))) = []

/-- Decidable equality of `Except` results, for evaluating the embedded
services on concrete inputs. -/
instance {e a : Type} [DecidableEq e] [DecidableEq a] : DecidableEq (Except e a)
  | .ok x, .ok y => decidable_of_iff (x = y) (by simp)
  | .error x, .error y => decidable_of_iff (x = y) (by simp)
  | .ok _, .error _ => isFalse (by simp)
  | .error _, .ok _ => isFalse (by simp)

/-! # Theorems -/

/-! ## Helper lemmas for quiz grading -/

theorem question_map_get_eq (qs : List Question) (i : Nat) :
    question_map_get qs i = qs.reverse.find? (fun q => q.id == i) := by
  suffices h : ∀ (l : List Question) (acc : Option Question),
      l.foldl (fun acc q => if q.id = i then some q else acc) acc
        = (l.reverse.find? (fun q => q.id == i)).or acc by
    simpa [question_map_get] using h qs none
  intro l
  induction l with
  | nil => intro acc; simp
  | cons a rest ih =>
      intro acc
      simp only [List.foldl_cons, List.reverse_cons, List.find?_append, ih]
      cases hfind : rest.reverse.find? (fun q => q.id == i) with
      | some x => simp
      | none =>
          by_cases hai : a.id = i
          · simp [List.find?_cons, hai]
          · simp [List.find?_cons, hai]

theorem question_map_get_eq_some_iff {qs : List Question}
    (h : (qs.map Question.id).Nodup) {i : Nat} {q : Question} :
    question_map_get qs i = some q ↔ q ∈ qs ∧ q.id = i := by
  rw [question_map_get_eq]
  constructor
  · intro hf
    have hq : q ∈ qs := List.mem_reverse.mp (List.mem_of_find?_eq_some hf)
    have hid : q.id = i := by simpa using List.find?_some hf
    exact ⟨hq, hid⟩
  · rintro ⟨hq, hid⟩
    have hsome : (qs.reverse.find? (fun q => q.id == i)).isSome := by
      rw [List.find?_isSome]
      exact ⟨q, List.mem_reverse.mpr hq, by simpa using hid⟩
    rcases Option.isSome_iff_exists.mp hsome with ⟨q', hq'⟩
    have hq'mem : q' ∈ qs := List.mem_reverse.mp (List.mem_of_find?_eq_some hq')
    have hq'id : q'.id = i := by simpa using List.find?_some hq'
    have : q' = q := List.inj_on_of_nodup_map h hq'mem hq (hq'id.trans hid.symm)
    rw [hq', this]

theorem answer_is_correct_iff {qs : List Question}
    (h : (qs.map Question.id).Nodup) (a : AnswerItem) :
    answer_is_correct qs a = true
      ↔ ∃ q ∈ qs, q.id = a.question_id ∧ q.option_a = a.option := by
  unfold answer_is_correct
  constructor
  · intro hc
    cases hm : question_map_get qs a.question_id with
    | none => rw [hm] at hc; exact absurd hc (by simp)
    | some q =>
        rw [hm] at hc
        rcases (question_map_get_eq_some_iff h).mp hm with ⟨hq, hid⟩
        exact ⟨q, hq, hid, by simpa using hc⟩
  · rintro ⟨q, hq, hid, hopt⟩
    have : question_map_get qs a.question_id = some q :=
      (question_map_get_eq_some_iff h).mpr ⟨hq, hid⟩
    rw [this]
    simpa using hopt

/-- C1: for every quiz-end submission, each submitted answer counts as
correct iff a question with the submitted `question_id` exists in the
quiz and the submitted option text equals that question's `option_a`
(unknown ids are silently ignored); `incorrect = total - correct`;
`score_percentage = correct/total*100`, `0` for a question-less quiz;
the grade thresholds are 90/80/70/60; the returned percentage is the
raw one rounded to 2 decimals. -/
theorem calculate_grade_spec (S : Rat) :
    (90 ≤ S → calculate_grade S = "A+")
    ∧ (80 ≤ S ∧ S < 90 → calculate_grade S = "A")
    ∧ (70 ≤ S ∧ S < 80 → calculate_grade S = "B")
    ∧ (60 ≤ S ∧ S < 70 → calculate_grade S = "C")
    ∧ (S < 60 → calculate_grade S = "F") := by
  unfold calculate_grade
  split_ifs with h1 h2 h3 h4 <;>
    refine ⟨fun h => ?_, fun h => ?_, fun h => ?_, fun h => ?_, fun h => ?_⟩ <;>
      first
        | rfl
        | (exfalso; simp only [ge_iff_le, not_le] at *
           linarith [le_refl S])

theorem end_quiz_grading_spec
    (user_id : Nat) (user_role : String) (data : EndQuizCreate) (quiz : Quiz)
    (hrole : role_in_whitelist user_role = true)
    (hids : (quiz.questions.map Question.id).Nodup) :
    ∃ (row : ResultRow) (resp : QuizResultResponse),
      end_quiz user_id user_role data (some quiz) = .ok (row, resp)
      ∧ resp.correct_answers
          = data.answers.countP (fun a =>
              decide (∃ q ∈ quiz.questions, q.id = a.question_id ∧ q.option_a = a.option))
      ∧ resp.total_questions = quiz.questions.length
      ∧ resp.incorrect_answers = (resp.total_questions : Int) - (resp.correct_answers : Int)
      ∧ row.score_percentage = (if 0 < quiz.questions.length then
            (resp.correct_answers : Rat) / (quiz.questions.length : Rat) * 100 else 0)
      ∧ (quiz.questions.length = 0 → row.score_percentage = 0)
      ∧ resp.score_percentage = py_round2 row.score_percentage
      ∧ (90 ≤ row.score_percentage → resp.grade = "A+")
      ∧ (80 ≤ row.score_percentage ∧ row.score_percentage < 90 → resp.grade = "A")
      ∧ (70 ≤ row.score_percentage ∧ row.score_percentage < 80 → resp.grade = "B")
      ∧ (60 ≤ row.score_percentage ∧ row.score_percentage < 70 → resp.grade = "C")
      ∧ (row.score_percentage < 60 → resp.grade = "F") := by
  unfold end_quiz
  rw [if_neg (by simp [hrole])]
  refine ⟨_, _, rfl, ?_, rfl, by push_cast; ring, rfl, ?_, rfl, ?_, ?_, ?_, ?_, ?_⟩
  · exact List.countP_congr fun a _ => by
      simp [answer_is_correct_iff hids a]
  · intro h0; simp [h0]
  · exact fun hsc => (calculate_grade_spec _).1 hsc
  · exact fun hsc => (calculate_grade_spec _).2.1 hsc
  · exact fun hsc => (calculate_grade_spec _).2.2.1 hsc
  · exact fun hsc => (calculate_grade_spec _).2.2.2.1 hsc
  · exact fun hsc => (calculate_grade_spec _).2.2.2.2 hsc

/-- Witness for C1: a concrete 4-question quiz and a submission matching
3 of the 4 `option_a` values. -/
theorem end_quiz_grading_spec_witness :
    ∃ (row : ResultRow) (resp : QuizResultResponse),
      end_quiz 9 "student"
          ⟨7, [⟨1, "a1"⟩, ⟨2, "a2"⟩, ⟨3, "a3"⟩, ⟨4, "zzz"⟩]⟩
          (some ⟨7, "quiz", 1, 30, "pin",
            [⟨1, "t1", "a1", "b", "c", "d"⟩, ⟨2, "t2", "a2", "b", "c", "d"⟩,
             ⟨3, "t3", "a3", "b", "c", "d"⟩, ⟨4, "t4", "a4", "b", "c", "d"⟩]⟩)
        = .ok (row, resp)
      ∧ resp.correct_answers
          = ([⟨1, "a1"⟩, ⟨2, "a2"⟩, ⟨3, "a3"⟩, ⟨4, "zzz"⟩] : List AnswerItem).countP (fun a =>
              decide (∃ q ∈ ([⟨1, "t1", "a1", "b", "c", "d"⟩, ⟨2, "t2", "a2", "b", "c", "d"⟩,
                  ⟨3, "t3", "a3", "b", "c", "d"⟩, ⟨4, "t4", "a4", "b", "c", "d"⟩] : List Question),
                q.id = a.question_id ∧ q.option_a = a.option)) := by
  obtain ⟨row, resp, h1, h2, _⟩ := end_quiz_grading_spec 9 "student"
    ⟨7, [⟨1, "a1"⟩, ⟨2, "a2"⟩, ⟨3, "a3"⟩, ⟨4, "zzz"⟩]⟩
    ⟨7, "quiz", 1, 30, "pin",
      [⟨1, "t1", "a1", "b", "c", "d"⟩, ⟨2, "t2", "a2", "b", "c", "d"⟩,
       ⟨3, "t3", "a3", "b", "c", "d"⟩, ⟨4, "t4", "a4", "b", "c", "d"⟩]⟩
    (by decide) (by decide)
  exact ⟨row, resp, h1, h2⟩

/-- C9: quiz-end grading does not deduplicate answers by question id —
a submission repeating one correct answer `k` times scores
`correct_answers = k`, so `incorrect_answers = total - k` in the
persisted `Result` row goes negative as soon as `k` exceeds the number
of questions. -/
theorem end_quiz_no_dedup
    (user_id : Nat) (user_role : String) (quiz : Quiz) (q : Question) (k : Nat)
    (hrole : role_in_whitelist user_role = true)
    (hq : question_map_get quiz.questions q.id = some q) :
    ∃ (row : ResultRow) (resp : QuizResultResponse),
      end_quiz user_id user_role ⟨quiz.id, List.replicate k ⟨q.id, q.option_a⟩⟩ (some quiz)
        = .ok (row, resp)
      ∧ row.correct_answers = k
      ∧ resp.correct_answers = k
      ∧ row.incorrect_answers = (quiz.questions.length : Int) - (k : Int)
      ∧ (quiz.questions.length < k → row.incorrect_answers < 0) := by
  unfold end_quiz
  rw [if_neg (by simp [hrole])]
  have hc : answer_is_correct quiz.questions ⟨q.id, q.option_a⟩ = true := by
    unfold answer_is_correct; rw [hq]; simp
  have hcount : (List.replicate k (⟨q.id, q.option_a⟩ : AnswerItem)).countP
      (answer_is_correct quiz.questions) = k := by
    induction k with
    | zero => simp
    | succ n ih => simp [List.replicate_succ, List.countP_cons, hc, ih]
  refine ⟨_, _, rfl, hcount, hcount, by rw [hcount], ?_⟩
  intro hlt
  simp only [hcount]
  omega

/-- Witness for C9: a single-question quiz answered three times over,
yielding `correct_answers = 3` out of 1 question. -/
theorem end_quiz_no_dedup_witness :
    ∃ (row : ResultRow) (resp : QuizResultResponse),
      end_quiz 5 "guest"
          ⟨2, List.replicate 3 ⟨1, "a"⟩⟩
          (some ⟨2, "quiz", 1, 30, "pin", [⟨1, "t", "a", "b", "c", "d"⟩]⟩)
        = .ok (row, resp)
      ∧ row.correct_answers = 3
      ∧ resp.correct_answers = 3
      ∧ row.incorrect_answers = (1 : Int) - (3 : Int)
      ∧ ((1 : Nat) < 3 → row.incorrect_answers < 0) := by
  have h := end_quiz_no_dedup 5 "guest"
    ⟨2, "quiz", 1, 30, "pin", [⟨1, "t", "a", "b", "c", "d"⟩]⟩
    ⟨1, "t", "a", "b", "c", "d"⟩ 3 (by decide) (by decide)
  simpa using h

/-- C2: quiz start fails Bad-Request without invoking the
face-comparison library when the caller has no stored reference image;
with a successful face verification it fails Unauthorized on a wrong
PIN and Not-Found on an unknown quiz id. -/
theorem start_quiz_checks
    (user_id quiz_id : Nat) (user_role pin : String) (u : UserRow)
    (quiz? : Option Quiz) (cmp : FaceCmp)
    (hrole : role_in_whitelist user_role = true) :
    (u.image = none →
      start_quiz user_id user_role quiz_id pin (some u) quiz? cmp
        = (.http (.badRequest "Foydalanuvchining bazada tekshirish uchun rasmi mavjud emas"),
           false))
    ∧ (∀ img, u.image = some img → ¬ img.isEmpty → cmp = .isMatch →
        ∀ quiz, quiz? = some quiz → quiz.pin ≠ pin →
          start_quiz user_id user_role quiz_id pin (some u) quiz? cmp
            = (.http (.unauthorized "Ushbu test uchun kiritilgan PIN-kod noto'g'ri"), true))
    ∧ (∀ img, u.image = some img → ¬ img.isEmpty → cmp = .isMatch →
        quiz? = none →
          start_quiz user_id user_role quiz_id pin (some u) quiz? cmp
            = (.http (.notFound ("ID-si " ++ toString quiz_id ++ " bo'lgan test topilmadi")),
               true)) := by
  refine ⟨?_, ?_, ?_⟩
  · intro himg
    unfold start_quiz
    rw [if_neg (by simp [hrole])]
    unfold get_user_and_check
    simp [himg, py_str_falsy]
  · rintro img himg hne rfl quiz rfl hpin
    unfold start_quiz
    rw [if_neg (by simp [hrole])]
    unfold get_user_and_check
    simp [himg, py_str_falsy, hne, hpin]
  · rintro img himg hne rfl rfl
    unfold start_quiz
    rw [if_neg (by simp [hrole])]
    unfold get_user_and_check
    simp [himg, py_str_falsy, hne]

/-- Witness for C2: a concrete user without a stored image (first
branch), and one with a stored image, a matching face and a wrong PIN
(second branch). -/
theorem start_quiz_checks_witness :
    start_quiz 1 "student" 4 "1234" (some ⟨1, "u", "pw", none, []⟩) (some ⟨4, "q", 1, 30, "9999", []⟩) .isMatch
      = (.http (.badRequest "Foydalanuvchining bazada tekshirish uchun rasmi mavjud emas"), false)
    ∧ start_quiz 1 "student" 4 "1234" (some ⟨1, "u", "pw", some "img.jpg", []⟩)
        (some ⟨4, "q", 1, 30, "9999", []⟩) .isMatch
      = (.http (.unauthorized "Ushbu test uchun kiritilgan PIN-kod noto'g'ri"), true)
    ∧ start_quiz 1 "student" 4 "1234" (some ⟨1, "u", "pw", some "img.jpg", []⟩) none .isMatch
      = (.http (.notFound ("ID-si " ++ toString (4 : Nat) ++ " bo'lgan test topilmadi")), true) := by
  refine ⟨?_, ?_, ?_⟩
  · exact (start_quiz_checks 1 4 "student" "1234" ⟨1, "u", "pw", none, []⟩
      (some ⟨4, "q", 1, 30, "9999", []⟩) .isMatch (by decide)).1 rfl
  · exact (start_quiz_checks 1 4 "student" "1234" ⟨1, "u", "pw", some "img.jpg", []⟩
      (some ⟨4, "q", 1, 30, "9999", []⟩) .isMatch (by decide)).2.1 "img.jpg" rfl (by decide) rfl
      ⟨4, "q", 1, 30, "9999", []⟩ rfl (by decide)
  · exact (start_quiz_checks 1 4 "student" "1234" ⟨1, "u", "pw", some "img.jpg", []⟩
      none .isMatch (by decide)).2.2 "img.jpg" rfl (by decide) rfl rfl

/-- C3: a validly decoded token whose payload has no `sub` claim does
NOT produce the 401 invalid-payload response — `int(payload.get("sub"))`
runs before the missing-sub check and raises an uncaught `TypeError`
(surfaced as a 500 Internal-Error), unlike the decode-failure and
unknown-user paths which do produce 401. -/
theorem get_current_user_missing_sub_bug :
    get_current_user "sometoken" (fun _ => .ok ⟨none⟩) (fun _ => none)
      = .unhandled .typeError
    ∧ (∀ d, get_current_user "sometoken" (fun _ => .ok ⟨none⟩) (fun _ => none) ≠ .http401 d)
    ∧ get_current_user "sometoken" (fun _ => .invalidToken) (fun _ => none)
      = .http401 "Invalid or expired token"
    ∧ get_current_user "sometoken" (fun _ => .ok ⟨some "7"⟩) (fun _ => none)
      = .http401 "User not found" := by
  refine ⟨by decide, fun d => ?_, by decide, by decide⟩
  intro h
  have : AuthOutcome.unhandled .typeError = .http401 d := by
    rw [← h]; decide
  exact absurd this (by simp)

/-- C4: the list-roles and list-users search filter is never applied.
`get_all` receives `search_columns="name"` / `"username"` (a string
where a list is expected), iterates its characters, finds no model
attribute named by any single character, builds no filter — so a page
is returned containing rows whose searched column does NOT contain the
search string, where the claim requires exactly the matching rows.  In
general the result equals the unfiltered catalog, whatever the search
string. -/
theorem get_all_search_ignored_bug :
    (get_all_roles [⟨1, "admin"⟩] ⟨1, 10, some "zzz"⟩).items = [⟨1, "admin"⟩]
    ∧ (get_all_roles [⟨1, "admin"⟩] ⟨1, 10, some "zzz"⟩).total = 1
    ∧ sql_ilike_contains "zzz" "admin" = false
    ∧ (get_all_users [⟨1, "bob", "pw", none, []⟩] ⟨1, 10, some "zzz"⟩).items
        = [⟨1, "bob", "pw", none, []⟩]
    ∧ (get_all_users [⟨1, "bob", "pw", none, []⟩] ⟨1, 10, some "zzz"⟩).total = 1
    ∧ sql_ilike_contains "zzz" "bob" = false
    ∧ (∀ (roles : List RoleRow) (p : Pagination),
        get_all_roles roles p
          = ⟨(roles.drop p.offset).take p.limit, roles.length, p.page, p.limit,
             if 0 < roles.length then (roles.length + p.limit - 1) / p.limit else 0⟩)
    ∧ (∀ (users : List UserRow) (p : Pagination),
        get_all_users users p
          = ⟨(users.drop p.offset).take p.limit, users.length, p.page, p.limit,
             if 0 < users.length then (users.length + p.limit - 1) / p.limit else 0⟩) := by
  have hroles : ∀ (roles : List RoleRow) (p : Pagination),
      get_all_roles roles p
        = ⟨(roles.drop p.offset).take p.limit, roles.length, p.page, p.limit,
           if 0 < roles.length then (roles.length + p.limit - 1) / p.limit else 0⟩ := by
    intro roles p
    unfold get_all_roles crud_get_all
    have hf : (py_str_iter "name").filter role_hasattr = [] := by decide
    rw [hf]
    split <;> simp
  have husers : ∀ (users : List UserRow) (p : Pagination),
      get_all_users users p
        = ⟨(users.drop p.offset).take p.limit, users.length, p.page, p.limit,
           if 0 < users.length then (users.length + p.limit - 1) / p.limit else 0⟩ := by
    intro users p
    unfold get_all_users crud_get_all
    have hf : (py_str_iter "username").filter user_hasattr = [] := by decide
    rw [hf]
    split <;> simp
  refine ⟨?_, ?_, by decide, ?_, ?_, by decide, hroles, husers⟩
  · rw [hroles]; decide
  · rw [hroles]; decide
  · rw [husers]; decide
  · rw [husers]; decide

/-! ## Helper lemmas for the bulk import -/

theorem bulk_process_eq (create : CreateOutcome) (kept : List (Nat × XlsRow)) :
    bulk_process create kept
      = (kept.filterMap (fun p =>
            match create p.1 with
            | .ok nid => some ⟨nid, py_trim ((xls_cell p.2 "text").getD "")⟩
            | .error _ => none),
         kept.filterMap (fun p =>
            match create p.1 with
            | .ok _ => none
            | .error e => some ⟨p.1 + 2, xls_cell p.2 "text", e⟩)) := by
  suffices h : ∀ (l : List (Nat × XlsRow)) (acc1 : List CreatedQuestion)
      (acc2 : List FailedQuestion),
      l.foldl
        (fun acc p =>
          match create p.1 with
          | .ok new_id =>
              (acc.1 ++ [⟨new_id, py_trim ((xls_cell p.2 "text").getD "")⟩], acc.2)
          | .error e =>
              (acc.1, acc.2 ++ [⟨p.1 + 2, xls_cell p.2 "text", e⟩]))
        (acc1, acc2)
        = (acc1 ++ l.filterMap (fun p =>
              match create p.1 with
              | .ok nid => some ⟨nid, py_trim ((xls_cell p.2 "text").getD "")⟩
              | .error _ => none),
           acc2 ++ l.filterMap (fun p =>
              match create p.1 with
              | .ok _ => none
              | .error e => some ⟨p.1 + 2, xls_cell p.2 "text", e⟩)) by
    simpa [bulk_process] using h kept [] []
  intro l
  induction l with
  | nil => intro acc1 acc2; simp
  | cons p rest ih =>
      intro acc1 acc2
      cases hcp : create p.1 with
      | ok nid => simp [List.foldl_cons, List.filterMap_cons, hcp, ih]
      | error e => simp [List.foldl_cons, List.filterMap_cons, hcp, ih]

theorem bulk_filterMap_length (create : CreateOutcome) (kept : List (Nat × XlsRow)) :
    (kept.filterMap (fun p =>
        match create p.1 with
        | .ok nid => some (⟨nid, py_trim ((xls_cell p.2 "text").getD "")⟩ : CreatedQuestion)
        | .error _ => none)).length
    + (kept.filterMap (fun p =>
        match create p.1 with
        | .ok _ => none
        | .error e => some (⟨p.1 + 2, xls_cell p.2 "text", e⟩ : FailedQuestion))).length
    = kept.length := by
  induction kept with
  | nil => simp
  | cons p rest ih =>
      cases hcp : create p.1 with
      | ok nid => simp [List.filterMap_cons, hcp]; omega
      | error e => simp [List.filterMap_cons, hcp]; omega

/-- C5: the bulk spreadsheet import rejects a sheet missing any
required column with a Bad-Request naming every missing column, without
creating anything; drops rows with missing required values; rejects
a sheet with no surviving rows; creates one question per surviving row,
recording (not aborting on) per-row failures with their header-relative
1-indexed row number, original text and error; and rejects the request
when zero rows were created. -/
theorem bulk_import_spec (df : DataFrame) (create : CreateOutcome) :
    (bulk_missing_columns df ≠ [] →
      ∀ create2 : CreateOutcome,
        create_questions_bulk_excel df create2
          = .error (.badRequest ("Missing required columns: "
              ++ String.intercalate ", " (bulk_missing_columns df)
              ++ ". Required: " ++ String.intercalate ", " required_columns)))
    ∧ (bulk_missing_columns df = [] → bulk_kept_rows df = [] →
        create_questions_bulk_excel df create
          = .error (.badRequest "No valid questions found in the Excel file"))
    ∧ (∀ rep, create_questions_bulk_excel df create = .ok rep →
        rep.created_questions = (bulk_kept_rows df).filterMap (fun p =>
            match create p.1 with
            | .ok nid => some ⟨nid, py_trim ((xls_cell p.2 "text").getD "")⟩
            | .error _ => none)
        ∧ (rep.failed_questions.getD []) = (bulk_kept_rows df).filterMap (fun p =>
            match create p.1 with
            | .ok _ => none
            | .error e => some ⟨p.1 + 2, xls_cell p.2 "text", e⟩)
        ∧ rep.created_count = rep.created_questions.length
        ∧ rep.failed_count = (rep.failed_questions.getD []).length
        ∧ rep.created_count + rep.failed_count = (bulk_kept_rows df).length
        ∧ rep.created_count ≠ 0)
    ∧ (bulk_missing_columns df = [] → bulk_kept_rows df ≠ [] →
        (∀ p ∈ bulk_kept_rows df, ∃ e, create p.1 = .error e) →
        create_questions_bulk_excel df create
          = .error (.badRequest "Failed to create any questions from the Excel file")) := by
  refine ⟨?_, ?_, ?_, ?_⟩
  · intro hmiss create2
    unfold create_questions_bulk_excel
    rw [if_pos hmiss]
  · intro hmiss hkept
    unfold create_questions_bulk_excel
    rw [if_neg (by simp [hmiss]), if_pos hkept]
  · intro rep hrep
    unfold create_questions_bulk_excel at hrep
    by_cases hmiss : bulk_missing_columns df = []
    · rw [if_neg (by simp [hmiss])] at hrep
      by_cases hkept : bulk_kept_rows df = []
      · rw [if_pos hkept] at hrep
        exact absurd hrep (by simp)
      · rw [if_neg hkept] at hrep
        rw [bulk_process_eq] at hrep
        by_cases hcreated : (bulk_kept_rows df).filterMap (fun p =>
            match create p.1 with
            | .ok nid => some (⟨nid, py_trim ((xls_cell p.2 "text").getD "")⟩ : CreatedQuestion)
            | .error _ => none) = []
        · rw [if_pos (by simpa using hcreated)] at hrep
          exact absurd hrep (by simp)
        · rw [if_neg (by simpa using hcreated)] at hrep
          injection hrep with hrep
          subst hrep
          refine ⟨rfl, ?_, rfl, ?_, ?_, ?_⟩
          · by_cases hfail : (bulk_kept_rows df).filterMap (fun p =>
                match create p.1 with
                | .ok _ => none
                | .error e => some (⟨p.1 + 2, xls_cell p.2 "text", e⟩ : FailedQuestion)) = []
            · simp [hfail]
            · simp [hfail]
          · by_cases hfail : (bulk_kept_rows df).filterMap (fun p =>
                match create p.1 with
                | .ok _ => none
                | .error e => some (⟨p.1 + 2, xls_cell p.2 "text", e⟩ : FailedQuestion)) = []
            · simp [hfail]
            · simp [hfail]
          · by_cases hfail : (bulk_kept_rows df).filterMap (fun p =>
                match create p.1 with
                | .ok _ => none
                | .error e => some (⟨p.1 + 2, xls_cell p.2 "text", e⟩ : FailedQuestion)) = []
            · simp only [hfail]
              simpa [hfail] using bulk_filterMap_length create (bulk_kept_rows df)
            · simp only [if_neg hfail, Option.getD_some]
              exact bulk_filterMap_length create (bulk_kept_rows df)
          · simpa using hcreated
    · rw [if_pos hmiss] at hrep
      exact absurd hrep (by simp)
  · intro hmiss hkept hfail
    unfold create_questions_bulk_excel
    rw [if_neg (by simp [hmiss]), if_neg hkept, bulk_process_eq]
    have hempty : (bulk_kept_rows df).filterMap (fun p =>
        match create p.1 with
        | .ok nid => some (⟨nid, py_trim ((xls_cell p.2 "text").getD "")⟩ : CreatedQuestion)
        | .error _ => none) = [] := by
      rw [List.filterMap_eq_nil_iff]
      intro p hp
      rcases hfail p hp with ⟨e, he⟩
      simp [he]
    rw [if_pos (by simpa using hempty)]

/-- Witness for C5: one spreadsheet whose second row's creation fails
(recorded as row 3 with its original text) while the first succeeds. -/
theorem bulk_import_spec_witness :
    (create_questions_bulk_excel
        ⟨["text", "option_a", "option_b", "option_c", "option_d"],
         [[("text", " q1 "), ("option_a", "a"), ("option_b", "b"), ("option_c", "c"), ("option_d", "d")],
          [("text", "q2"), ("option_a", "a"), ("option_b", "b"), ("option_c", "c"), ("option_d", "d")]]⟩
        (fun i => if i = 0 then .ok 11 else .error "Duplicate or invalid data")
      = .ok ⟨1, 1, [⟨11, "q1"⟩], some [⟨3, some "q2", "Duplicate or invalid data"⟩]⟩)
    ∧ ([⟨11, "q1"⟩] : List CreatedQuestion)
        = (bulk_kept_rows ⟨["text", "option_a", "option_b", "option_c", "option_d"],
           [[("text", " q1 "), ("option_a", "a"), ("option_b", "b"), ("option_c", "c"), ("option_d", "d")],
            [("text", "q2"), ("option_a", "a"), ("option_b", "b"), ("option_c", "c"), ("option_d", "d")]]⟩).filterMap
          (fun p =>
            match (fun i => if i = 0 then Except.ok 11 else Except.error "Duplicate or invalid data") p.1 with
            | .ok nid => some ⟨nid, py_trim ((xls_cell p.2 "text").getD "")⟩
            | .error _ => none) := by
  constructor
  · decide
  · have h := (bulk_import_spec
      ⟨["text", "option_a", "option_b", "option_c", "option_d"],
       [[("text", " q1 "), ("option_a", "a"), ("option_b", "b"), ("option_c", "c"), ("option_d", "d")],
        [("text", "q2"), ("option_a", "a"), ("option_b", "b"), ("option_c", "c"), ("option_d", "d")]]⟩
      (fun i => if i = 0 then .ok 11 else .error "Duplicate or invalid data")).2.2.1
      ⟨1, 1, [⟨11, "q1"⟩], some [⟨3, some "q2", "Duplicate or invalid data"⟩]⟩
      (by decide)
    exact h.1.symm

/-! ## Helper lemmas for role-permission assignment -/

theorem rp_insert_all_dup (db : RPDb) (rid : Nat) (pids : List Nat)
    (hrole : rid ∈ db.roles) (hperms : ∀ p ∈ pids, p ∈ db.perms)
    (hdup : ∃ p ∈ pids, (rid, p) ∈ db.rolePerms) :
    rp_insert_all db (pids.map (fun pid => (rid, pid))) = .error .uniqueViolation := by
  induction pids generalizing db with
  | nil => simp at hdup
  | cons p rest ih =>
      simp only [List.map_cons, rp_insert_all]
      by_cases hmem : (rid, p) ∈ db.rolePerms
      · unfold rp_insert
        rw [if_pos hmem]
      · unfold rp_insert
        rw [if_neg hmem, if_neg (by simp [hrole]),
            if_neg (by simp [hperms p (List.mem_cons_self p rest)])]
        dsimp only
        apply ih
        · simpa using hrole
        · intro x hx; simpa using hperms x (List.mem_cons_of_mem p hx)
        · rcases hdup with ⟨p0, hp0, hp0m⟩
          rcases List.mem_cons.mp hp0 with rfl | hp0r
          · exact absurd hp0m hmem
          · exact ⟨p0, hp0r, by simp [hp0m]⟩

set_option maxRecDepth 8192 in
/-- C6: re-assigning an already-assigned `(role_id, permission_id)`
pair fails with Conflict and leaves the association table unchanged;
a bulk assignment containing at least one already-assigned id (the
other ids being valid) fails with Conflict as a whole, committing
nothing. -/
theorem assign_permission_conflict_spec
    (db db1 : RPDb) (rid pid : Nat) (pids : List Nat) :
    (assign_permissions_to_role db rid pid = (.ok (some ⟨rid, pid⟩), db1) →
      assign_permissions_to_role db1 rid pid
        = (.error (.conflict "Permission already assigned to this role"), db1))
    ∧ (rid ∈ db.roles → (∀ p ∈ pids, p ∈ db.perms) →
        (∃ p ∈ pids, (rid, p) ∈ db.rolePerms) →
        assign_permission_ids_to_role db rid pids
          = (.error (.conflict "One or more permissions already assigned to this role"), db)) := by
  constructor
  · intro h
    have hmem : (rid, pid) ∈ db1.rolePerms := by
      cases hins : rp_insert db rid pid with
      | error e =>
          exfalso
          unfold assign_permissions_to_role at h
          rw [hins] at h
          dsimp only at h
          split_ifs at h <;> simp at h
      | ok db2 =>
          unfold assign_permissions_to_role at h
          rw [hins] at h
          dsimp only at h
          have hdb : db2 = db1 := congrArg Prod.snd h
          unfold rp_insert at hins
          split_ifs at hins
          injection hins with hins
          rw [← hdb, ← hins]
          simp
    unfold assign_permissions_to_role rp_insert
    rw [if_pos hmem]
    dsimp only
    rw [if_neg (by decide), if_pos (by decide)]
  · intro hrole hperms hdup
    unfold assign_permission_ids_to_role
    rw [rp_insert_all_dup db rid pids hrole hperms hdup]
    dsimp only
    rw [if_neg (by decide), if_pos (by decide)]

/-- Witness for C6: a first assignment of permission 5 to role 2
succeeds; repeating it reports Conflict, as does a bulk request
containing the now-assigned id 5 next to the fresh id 6. -/
theorem assign_permission_conflict_spec_witness :
    assign_permissions_to_role ⟨[2], [5, 6], [(2, 5)]⟩ 2 5
      = (.error (.conflict "Permission already assigned to this role"), ⟨[2], [5, 6], [(2, 5)]⟩)
    ∧ assign_permission_ids_to_role ⟨[2], [5, 6], [(2, 5)]⟩ 2 [6, 5]
      = (.error (.conflict "One or more permissions already assigned to this role"),
         ⟨[2], [5, 6], [(2, 5)]⟩) := by
  constructor
  · exact (assign_permission_conflict_spec ⟨[2], [5, 6], []⟩ ⟨[2], [5, 6], [(2, 5)]⟩
      2 5 []).1 (by decide)
  · exact (assign_permission_conflict_spec ⟨[2], [5, 6], [(2, 5)]⟩ ⟨[2], [5, 6], [(2, 5)]⟩
      2 5 [6, 5]).2 (by decide) (by decide) ⟨5, by decide, by decide⟩

/-- C10: login and refresh read `user.roles[0]` unconditionally, so a
role-less user with correct credentials (or a valid refresh token) hits
an uncaught `IndexError` (surfaced as Internal-Error) instead of
receiving tokens; a token pair is only ever issued when the user holds
at least one role. -/
theorem login_refresh_first_role_spec :
    (∀ (username password : String) (lookup : String → Option UserRow)
        (verify : String → String → Bool) (u : UserRow),
      lookup username = some u → verify password u.password = true → u.roles = [] →
      login_user username password lookup verify = .unhandled .indexError)
    ∧ (∀ (username password : String) (lookup : String → Option UserRow)
        (verify : String → String → Bool) (resp : UserLoginResponse),
      login_user username password lookup verify = .ok resp →
      ∃ u, lookup username = some u ∧ u.roles ≠ [])
    ∧ (∀ (token : String) (decode : String → RefreshDecode) (lookup : Int → Option UserRow)
        (sub : String) (uid : Int) (u : UserRow),
      decode token = .ok (some sub) → ¬ sub.isEmpty → py_str_to_int? sub = some uid →
      lookup uid = some u → u.roles = [] →
      refresh_token token decode lookup = .unhandled .indexError)
    ∧ (∀ (token : String) (decode : String → RefreshDecode) (lookup : Int → Option UserRow)
        (resp : UserLoginResponse),
      refresh_token token decode lookup = .ok resp →
      ∃ uid u, lookup uid = some u ∧ u.roles ≠ []) := by
  refine ⟨?_, ?_, ?_, ?_⟩
  · intro username password lookup verify u hu hv hroles
    unfold login_user
    rw [hu]
    dsimp only
    rw [if_neg (by simp [hv])]
    rw [hroles]
  · intro username password lookup verify resp h
    unfold login_user at h
    cases hu : lookup username with
    | none => rw [hu] at h; exact absurd h (by simp)
    | some u =>
        rw [hu] at h
        dsimp only at h
        split_ifs at h
        cases hroles : u.roles with
        | nil => rw [hroles] at h; exact absurd h (by simp)
        | cons r rest => exact ⟨u, rfl, by simp [hroles]⟩
  · intro token decode lookup sub uid u hdec hne hint hu hroles
    unfold refresh_token
    rw [hdec]
    dsimp only
    rw [if_neg (by simpa using hne)]
    unfold py_int_str
    rw [hint]
    dsimp only
    rw [hu]
    dsimp only
    rw [hroles]
  · intro token decode lookup resp h
    unfold refresh_token at h
    cases hdec : decode token with
    | invalid => rw [hdec] at h; exact absurd h (by simp)
    | ok sub? =>
        rw [hdec] at h
        cases sub? with
        | none => dsimp only at h; exact absurd h (by simp)
        | some sub =>
            dsimp only at h
            by_cases hemp : sub.isEmpty = true
            · rw [if_pos hemp] at h; exact absurd h (by simp)
            · rw [if_neg hemp] at h
              unfold py_int_str at h
              cases hint : py_str_to_int? sub with
              | none => rw [hint] at h; exact absurd h (by simp)
              | some uid =>
                  rw [hint] at h
                  dsimp only at h
                  cases hu : lookup uid with
                  | none => rw [hu] at h; exact absurd h (by simp)
                  | some u =>
                      rw [hu] at h
                      dsimp only at h
                      cases hroles : u.roles with
                      | nil => rw [hroles] at h; exact absurd h (by simp)
                      | cons r rest => exact ⟨uid, u, hu, by simp [hroles]⟩

/-- Witness for C10: a role-less user logging in with correct
credentials, and the same user resolved by a valid refresh token. -/
theorem login_refresh_first_role_spec_witness :
    login_user "bob" "pw" (fun _ => some ⟨1, "bob", "pw", none, []⟩) (fun a b => a == b)
      = .unhandled .indexError
    ∧ refresh_token "tok" (fun _ => .ok (some "1")) (fun _ => some ⟨1, "bob", "pw", none, []⟩)
      = .unhandled .indexError := by
  constructor
  · exact login_refresh_first_role_spec.1 "bob" "pw"
      (fun _ => some ⟨1, "bob", "pw", none, []⟩) (fun a b => a == b)
      ⟨1, "bob", "pw", none, []⟩ rfl (by decide) rfl
  · exact login_refresh_first_role_spec.2.2.1 "tok"
      (fun _ => .ok (some "1")) (fun _ => some ⟨1, "bob", "pw", none, []⟩)
      "1" 1 ⟨1, "bob", "pw", none, []⟩ rfl (by decide) (by decide) rfl rfl

/-! ## Helper lemmas for bootstrap seeding -/

theorem sync_fields (reg : List (String × String)) (db : BootDb) :
    (sync_permissions_to_db reg db).users = db.users
    ∧ (sync_permissions_to_db reg db).roles = db.roles
    ∧ (sync_permissions_to_db reg db).userRoles = db.userRoles
    ∧ (sync_permissions_to_db reg db).rolePerms = db.rolePerms := by
  induction reg generalizing db with
  | nil => simp [sync_permissions_to_db]
  | cons p rest ih =>
      have hstep : (sync_step db p).users = db.users ∧ (sync_step db p).roles = db.roles
          ∧ (sync_step db p).userRoles = db.userRoles
          ∧ (sync_step db p).rolePerms = db.rolePerms := by
        unfold sync_step; split <;> simp
      have := ih (sync_step db p)
      simp only [sync_permissions_to_db, List.foldl_cons] at *
      exact ⟨this.1.trans hstep.1, this.2.1.trans hstep.2.1,
             this.2.2.1.trans hstep.2.2.1, this.2.2.2.trans hstep.2.2.2⟩

theorem sync_perm_mono (reg : List (String × String)) (db : BootDb)
    {q : String × String} (h : db.perms.any (fun e => e.2 == q) = true) :
    (sync_permissions_to_db reg db).perms.any (fun e => e.2 == q) = true := by
  induction reg generalizing db with
  | nil => simpa [sync_permissions_to_db] using h
  | cons p rest ih =>
      simp only [sync_permissions_to_db, List.foldl_cons] at *
      apply ih
      unfold sync_step
      split
      · exact h
      · simp only [List.any_append, h]; simp

theorem sync_perm_present (reg : List (String × String)) (db : BootDb) :
    ∀ p ∈ reg, (sync_permissions_to_db reg db).perms.any (fun e => e.2 == p) = true := by
  induction reg generalizing db with
  | nil => simp
  | cons q rest ih =>
      intro p hp
      simp only [sync_permissions_to_db, List.foldl_cons]
      rcases List.mem_cons.mp hp with rfl | hpr
      · apply sync_perm_mono
        unfold sync_step
        split
        · assumption
        · simp only [List.any_append]; simp
      · exact ih (sync_step db q) p hpr

theorem sync_eq_self (reg : List (String × String)) (db : BootDb)
    (h : ∀ p ∈ reg, db.perms.any (fun e => e.2 == p) = true) :
    sync_permissions_to_db reg db = db := by
  induction reg with
  | nil => rfl
  | cons p rest ih =>
      simp only [sync_permissions_to_db, List.foldl_cons]
      rw [sync_step, if_pos (h p (List.mem_cons_self p rest))]
      exact ih fun q hq => h q (List.mem_cons_of_mem p hq)

theorem sync_nodup (reg : List (String × String)) (db : BootDb)
    (h : (db.perms.map (fun e => e.2)).Nodup) :
    ((sync_permissions_to_db reg db).perms.map (fun e => e.2)).Nodup := by
  induction reg generalizing db with
  | nil => simpa [sync_permissions_to_db] using h
  | cons p rest ih =>
      simp only [sync_permissions_to_db, List.foldl_cons]
      apply ih
      unfold sync_step
      split
      · exact h
      · next hcond =>
          simp only [List.map_append, List.map_cons, List.map_nil]
          rw [List.nodup_append]
          refine ⟨h, List.nodup_singleton _, ?_⟩
          intro x hx
          simp only [List.mem_singleton]
          intro hxp
          subst hxp
          rcases List.mem_map.mp hx with ⟨e, he, hep⟩
          exact hcond (List.any_eq_true.mpr ⟨e, he, by simp [hep]⟩)

theorem create_roles_fields (db : BootDb) :
    (create_roles db).users = db.users
    ∧ (create_roles db).userRoles = db.userRoles
    ∧ (create_roles db).perms = db.perms
    ∧ (create_roles db).rolePerms = db.rolePerms := by
  have hstep : ∀ (d : BootDb) (n : String),
      (create_role_step d n).users = d.users
      ∧ (create_role_step d n).userRoles = d.userRoles
      ∧ (create_role_step d n).perms = d.perms
      ∧ (create_role_step d n).rolePerms = d.rolePerms := by
    intro d n; unfold create_role_step; split <;> simp
  unfold create_roles
  generalize ROLE_LIST = names
  induction names generalizing db with
  | nil => simp
  | cons n rest ih =>
      simp only [List.foldl_cons]
      have h1 := hstep db n
      have h2 := ih (create_role_step db n)
      exact ⟨h2.1.trans h1.1, h2.2.1.trans h1.2.1,
             h2.2.2.1.trans h1.2.2.1, h2.2.2.2.trans h1.2.2.2⟩

theorem create_roles_step_mono {db : BootDb} {n : String} {q : String}
    (h : db.roles.any (fun r => r.2 == q) = true) :
    (create_role_step db n).roles.any (fun r => r.2 == q) = true := by
  unfold create_role_step
  split
  · exact h
  · simp only [List.any_append, h]; simp

theorem create_roles_aux_mono (names : List String) (db : BootDb) {q : String}
    (h : db.roles.any (fun r => r.2 == q) = true) :
    (names.foldl create_role_step db).roles.any (fun r => r.2 == q) = true := by
  induction names generalizing db with
  | nil => simpa using h
  | cons n rest ih =>
      simp only [List.foldl_cons]
      exact ih (create_role_step db n) (create_roles_step_mono h)

theorem create_roles_present (db : BootDb) :
    ∀ n ∈ ROLE_LIST, (create_roles db).roles.any (fun r => r.2 == n) = true := by
  unfold create_roles
  generalize ROLE_LIST = names
  induction names generalizing db with
  | nil => simp
  | cons m rest ih =>
      intro n hn
      simp only [List.foldl_cons]
      rcases List.mem_cons.mp hn with rfl | hnr
      · apply create_roles_aux_mono
        unfold create_role_step
        split
        · assumption
        · simp only [List.any_append]; simp
      · exact ih (create_role_step db m) n hnr

theorem create_roles_eq_self (db : BootDb)
    (h : ∀ n ∈ ROLE_LIST, db.roles.any (fun r => r.2 == n) = true) :
    create_roles db = db := by
  unfold create_roles
  revert h
  generalize ROLE_LIST = names
  induction names with
  | nil => intro _; rfl
  | cons n rest ih =>
      intro h
      simp only [List.foldl_cons]
      rw [create_role_step, if_pos (h n (List.mem_cons_self n rest))]
      exact ih fun q hq => h q (List.mem_cons_of_mem n hq)

theorem create_roles_nodup (db : BootDb)
    (h : (db.roles.map Prod.snd).Nodup) :
    ((create_roles db).roles.map Prod.snd).Nodup := by
  unfold create_roles
  generalize ROLE_LIST = names
  induction names generalizing db with
  | nil => simpa using h
  | cons n rest ih =>
      simp only [List.foldl_cons]
      apply ih
      unfold create_role_step
      split
      · exact h
      · next hcond =>
          simp only [List.map_append, List.map_cons, List.map_nil]
          rw [List.nodup_append]
          refine ⟨h, List.nodup_singleton _, ?_⟩
          intro x hx
          simp only [List.mem_singleton]
          intro hxp
          subst hxp
          rcases List.mem_map.mp hx with ⟨e, he, hep⟩
          exact hcond (List.any_eq_true.mpr ⟨e, he, by simp [hep]⟩)

theorem create_admin_ok {t : UniTables} {au : String} {db : BootDb}
    {uid : Nat} {db' : BootDb} (h : create_admin t au db = .ok (uid, db')) :
    db'.roles = db.roles ∧ db'.userRoles = db.userRoles
    ∧ db'.perms = db.perms ∧ db'.rolePerms = db.rolePerms
    ∧ ((db.users.map Prod.snd).Nodup → (db'.users.map Prod.snd).Nodup)
    ∧ (normalize_str t au = au →
        db'.users.find? (fun x => x.2 == au) = some (uid, au)) := by
  unfold create_admin at h
  cases hf : db.users.find? (fun p => p.2 == au) with
  | some p =>
      rw [hf] at h
      injection h with h
      injection h with h1 h2
      subst h1
      subst h2
      refine ⟨rfl, rfl, rfl, rfl, fun hn => hn, fun _ => ?_⟩
      have hp : p.2 = au := by simpa using List.find?_some hf
      simpa [← hp] using hf
  | none =>
      rw [hf] at h
      dsimp only at h
      split_ifs at h with hdup
      injection h with h
      injection h with h1 h2
      subst h1
      subst h2
      refine ⟨rfl, rfl, rfl, rfl, ?_, ?_⟩
      · intro hn
        simp only [List.map_append, List.map_cons, List.map_nil]
        rw [List.nodup_append]
        refine ⟨hn, List.nodup_singleton _, ?_⟩
        intro x hx
        simp only [List.mem_singleton]
        intro hxau
        subst hxau
        rcases List.mem_map.mp hx with ⟨e, he, hep⟩
        exact hdup (List.any_eq_true.mpr ⟨e, he, by simp [hep]⟩)
      · intro hnorm
        rw [hnorm]
        dsimp only
        rw [List.find?_append, hf]
        simp

theorem assign_user_role_ok {arn : String} {db : BootDb} {uid rid : Nat} {db' : BootDb}
    (h : assign_user_role arn db uid = .ok (rid, db')) :
    (∃ r, db.roles.find? (fun x => x.2 == arn) = some r ∧ r.1 = rid)
    ∧ db'.users = db.users ∧ db'.roles = db.roles ∧ db'.perms = db.perms
    ∧ db'.rolePerms = db.rolePerms
    ∧ (uid, rid) ∈ db'.userRoles
    ∧ (∀ x ∈ db.userRoles, x ∈ db'.userRoles)
    ∧ (db.userRoles.Nodup → db'.userRoles.Nodup) := by
  unfold assign_user_role at h
  cases hf : db.roles.find? (fun p => p.2 == arn) with
  | none => rw [hf] at h; exact absurd h (by simp)
  | some r =>
      rw [hf] at h
      dsimp only at h
      split_ifs at h with hmem
      · injection h with h
        injection h with h1 h2
        subst h1; subst h2
        exact ⟨⟨r, rfl, rfl⟩, rfl, rfl, rfl, rfl, hmem, fun x hx => hx, fun hn => hn⟩
      · injection h with h
        injection h with h1 h2
        subst h1; subst h2
        refine ⟨⟨r, rfl, rfl⟩, rfl, rfl, rfl, rfl, by simp, fun x hx => by simp [hx], ?_⟩
        intro hn
        simp only [List.nodup_append]
        exact ⟨hn, List.nodup_singleton _, by
          intro x hx
          simp only [List.mem_singleton]
          intro hxe
          subst hxe
          exact hmem hx⟩

theorem assign_user_role_eq_self {arn : String} {db : BootDb} {uid : Nat} {r : Nat × String}
    (hf : db.roles.find? (fun x => x.2 == arn) = some r)
    (hmem : (uid, r.1) ∈ db.userRoles) :
    assign_user_role arn db uid = .ok (r.1, db) := by
  unfold assign_user_role
  rw [hf]
  dsimp only
  rw [if_pos hmem]

theorem assign_role_permissions_ok {db : BootDb} {rid : Nat} {db' : BootDb}
    (h : assign_role_permissions db rid = .ok db') :
    db'.users = db.users ∧ db'.roles = db.roles ∧ db'.userRoles = db.userRoles
    ∧ db'.perms = db.perms ∧ db'.perms ≠ []
    ∧ (db'.perms.map (fun p => p.1)).filter
        (fun pid => ¬ pid ∈ ((db'.rolePerms.filter (fun pr => pr.1 == rid)).map
          (fun pr => pr.2))) = [] := by
  unfold assign_role_permissions at h
  by_cases hempty : db.perms = []
  · rw [if_pos hempty] at h
    exact absurd h (by simp)
  · rw [if_neg hempty] at h
    dsimp only at h
    set existing := (db.rolePerms.filter (fun pr => pr.1 == rid)).map (fun pr => pr.2)
      with hexisting
    by_cases hmiss : (db.perms.map (fun p => p.1)).filter (fun pid => ¬ pid ∈ existing) = []
    · rw [if_pos hmiss] at h
      injection h with h
      subst h
      exact ⟨rfl, rfl, rfl, rfl, hempty, hmiss⟩
    · rw [if_neg hmiss] at h
      injection h with h
      subst h
      refine ⟨rfl, rfl, rfl, rfl, hempty, ?_⟩
      dsimp only
      rw [List.filter_eq_nil_iff]
      intro pid hpid
      have hfilter : (db.rolePerms ++ ((db.perms.map (fun p => p.1)).filter
            (fun pid => ¬ pid ∈ existing)).map (fun pid => (rid, pid))).filter
            (fun pr => pr.1 == rid)
          = db.rolePerms.filter (fun pr => pr.1 == rid)
            ++ ((db.perms.map (fun p => p.1)).filter (fun pid => ¬ pid ∈ existing)).map
              (fun pid => (rid, pid)) := by
        rw [List.filter_append]
        congr 1
        rw [List.filter_eq_self]
        intro a ha
        rcases List.mem_map.mp ha with ⟨x, _, hx⟩
        subst hx
        simp
      have hgoal : pid ∈ ((db.rolePerms ++ ((db.perms.map (fun p => p.1)).filter
            (fun pid => ¬ pid ∈ existing)).map (fun pid => (rid, pid))).filter
            (fun pr => pr.1 == rid)).map (fun pr => pr.2) := by
        rw [hfilter, List.map_append]
        by_cases hin : pid ∈ existing
        · exact List.mem_append_left _ (by simpa [hexisting] using hin)
        · apply List.mem_append_right
          rw [List.map_map]
          refine List.mem_map.mpr ⟨pid, ?_, rfl⟩
          exact List.mem_filter.mpr ⟨hpid, by simpa using hin⟩
      intro hcontra
      simp only [decide_eq_true_eq] at hcontra
      exact absurd hgoal hcontra

theorem assign_role_permissions_eq_self {db : BootDb} {rid : Nat}
    (hne : db.perms ≠ [])
    (hmiss : (db.perms.map (fun p => p.1)).filter
        (fun pid => ¬ pid ∈ ((db.rolePerms.filter (fun pr => pr.1 == rid)).map
          (fun pr => pr.2))) = []) :
    assign_role_permissions db rid = .ok db := by
  unfold assign_role_permissions
  rw [if_neg (by simpa using hne)]
  dsimp only
  rw [if_pos hmiss]

theorem count_nodup_mem_eq_one {α : Type} [BEq α] [LawfulBEq α] {l : List α} {a : α}
    (h : l.Nodup) (ha : a ∈ l) : l.count a = 1 := by
  induction l with
  | nil => cases ha
  | cons b l ih =>
      rw [List.count_cons]
      rcases List.mem_cons.mp ha with rfl | hal
      · have hz : l.count a = 0 := List.count_eq_zero.mpr (by
          intro hmem
          exact (List.nodup_cons.mp h).1 hmem)
        simp [hz]
      · have hb : ¬ (b == a) = true := by
          intro hab
          have : b = a := by simpa using hab
          subst this
          exact (List.nodup_cons.mp h).1 hal
        rw [if_neg hb, ih (List.nodup_cons.mp h).2 hal]

theorem startup_of_stable {t : UniTables} {reg : List (String × String)}
    {au arn : String} {d : BootDb} (h : BootDb.Stable reg au arn d) :
    startup t reg au arn d = .ok d := by
  obtain ⟨hperms, hroles, p, r, hfu, hfr, hlink, hne, hmiss⟩ := h
  unfold startup
  dsimp only
  rw [sync_eq_self reg d hperms, create_roles_eq_self d hroles]
  have hca : create_admin t au d = .ok (p.1, d) := by
    unfold create_admin
    rw [hfu]
  rw [hca]
  dsimp only
  rw [assign_user_role_eq_self hfr hlink]
  exact assign_role_permissions_eq_self hne hmiss

theorem startup_post {t : UniTables} {reg : List (String × String)} {au arn : String}
    {db db1 : BootDb} (hwf : db.WF) (hnorm : normalize_str t au = au)
    (h : startup t reg au arn db = .ok db1) :
    BootDb.Stable reg au arn db1 ∧ db1.WF := by
  obtain ⟨hwfu, hwfr, hwful, hwfp⟩ := hwf
  unfold startup at h
  dsimp only at h
  cases hca : create_admin t au (create_roles (sync_permissions_to_db reg db)) with
  | error e => rw [hca] at h; exact absurd h (by simp)
  | ok adm =>
      rw [hca] at h
      dsimp only at h
      obtain ⟨uid, dbC⟩ := adm
      cases has : assign_user_role arn dbC uid with
      | error e => rw [has] at h; exact absurd h (by simp)
      | ok rdb =>
          rw [has] at h
          dsimp only at h
          obtain ⟨rid, dbD⟩ := rdb
          have harp := assign_role_permissions_ok h
          obtain ⟨harpU, harpR, harpUR, harpP, harpNe, harpMiss⟩ := harp
          have haur := assign_user_role_ok has
          obtain ⟨⟨r, hfr, hrid⟩, haurU, haurR, haurP, haurRP, haurLink, haurMono,
            haurNodup⟩ := haur
          have hcaOk := create_admin_ok hca
          obtain ⟨hcaR, hcaUR, hcaP, hcaRP, hcaNodup, hcaFind⟩ := hcaOk
          have hsyncF := sync_fields reg db
          have hcrF := create_roles_fields (sync_permissions_to_db reg db)
          have hperms1 : db1.perms = (sync_permissions_to_db reg db).perms := by
            rw [harpP, haurP, hcaP, hcrF.2.2.1]
          have hroles1 : db1.roles
              = (create_roles (sync_permissions_to_db reg db)).roles := by
            rw [harpR, haurR, hcaR]
          have husers1 : db1.users = dbC.users := by
            rw [harpU, haurU]
          constructor
          · refine ⟨?_, ?_, (uid, au), r, ?_, ?_, ?_, ?_, ?_⟩
            · intro q hq
              rw [hperms1]
              exact sync_perm_present reg db q hq
            · intro n hn
              rw [hroles1]
              exact create_roles_present (sync_permissions_to_db reg db) n hn
            · rw [husers1]
              exact hcaFind hnorm
            · rw [hroles1, ← hcaR]
              exact hfr
            · rw [harpUR, hrid]
              exact haurLink
            · exact harpNe
            · rw [hrid]
              exact harpMiss
          · refine ⟨?_, ?_, ?_, ?_⟩
            · rw [husers1]
              apply hcaNodup
              rw [hcrF.1, hsyncF.1]
              exact hwfu
            · rw [hroles1]
              apply create_roles_nodup
              rw [hsyncF.2.1]
              exact hwfr
            · rw [harpUR]
              apply haurNodup
              rw [hcaUR, hcrF.2.1, hsyncF.2.2.1]
              exact hwful
            · rw [hperms1]
              exact sync_nodup reg db hwfp

/-- C7, amended: the bootstrap sequence is idempotent whenever the
configured admin username is a fixed point of the registration path's
username normalization (e.g. an already trimmed, lowercase name): a
second startup run from the state the first produced changes nothing
and raises no error, each of the four seeded roles exists exactly once,
exactly one admin user exists, exactly one admin-user-to-admin-role
link exists, and the permission table holds no duplicate
`(resource, action)` row.  (For a username the normalization alters,
the second run re-registers and aborts — see the counterexample.) -/
theorem startup_idempotent_spec
    (t : UniTables) (reg : List (String × String)) (au arn : String) (db db1 : BootDb)
    (hwf : db.WF) (hnorm : normalize_str t au = au)
    (hrun : startup t reg au arn db = .ok db1) :
    startup t reg au arn db1 = .ok db1
    ∧ (∀ n ∈ ROLE_LIST, (db1.roles.map Prod.snd).count n = 1)
    ∧ (db1.users.map Prod.snd).count au = 1
    ∧ (∀ uid rid, (uid, au) ∈ db1.users → (rid, arn) ∈ db1.roles →
        db1.userRoles.count (uid, rid) = 1)
    ∧ (db1.perms.map (fun e => e.2)).Nodup := by
  obtain ⟨hstable, hwf1⟩ := startup_post hwf hnorm hrun
  obtain ⟨hperms, hroles, p, r, hfu, hfr, hlink, hne, hmiss⟩ := hstable
  refine ⟨startup_of_stable ⟨hperms, hroles, p, r, hfu, hfr, hlink, hne, hmiss⟩,
    ?_, ?_, ?_, hwf1.2.2.2⟩
  · intro n hn
    rcases List.any_eq_true.mp (hroles n hn) with ⟨e, he, hen⟩
    exact count_nodup_mem_eq_one hwf1.2.1
      (List.mem_map.mpr ⟨e, he, by simpa using hen⟩)
  · have hpu : p ∈ db1.users := List.mem_of_find?_eq_some hfu
    have hpau : p.2 = au := by simpa using List.find?_some hfu
    exact count_nodup_mem_eq_one hwf1.1 (List.mem_map.mpr ⟨p, hpu, hpau⟩)
  · intro uid rid hu hr
    have hpu : p ∈ db1.users := List.mem_of_find?_eq_some hfu
    have hpau : p.2 = au := by simpa using List.find?_some hfu
    have hru : r ∈ db1.roles := List.mem_of_find?_eq_some hfr
    have hrar : r.2 = arn := by simpa using List.find?_some hfr
    have huid : (uid, au) = p :=
      List.inj_on_of_nodup_map hwf1.1 hu hpu (by simp [hpau])
    have hrid : (rid, arn) = r :=
      List.inj_on_of_nodup_map hwf1.2.1 hr hru (by simp [hrar])
    have : (uid, rid) = (p.1, r.1) := by
      rw [← huid, ← hrid]
    rw [this]
    exact count_nodup_mem_eq_one hwf1.2.2.1 hlink

set_option maxHeartbeats 20000000 in
/-- Counterexample to C7 as stated: with the admin username configured
as "Admin" (altered by the registration path's normalization to
"admin"), the first startup run from an empty database succeeds, but
the second run's raw-username lookup misses, the re-registration hits
the username uniqueness violation, and startup aborts with an error —
the sequence is not unconditionally idempotent. -/
theorem startup_not_idempotent_counterexample :
    startup uz_tables [("auth", "me")] "Admin" "admin" ⟨[], [], [], [], [], 1⟩
      = .ok ⟨[(6, "admin")], [(2, "admin"), (3, "user"), (4, "teacher"), (5, "student")],
             [(6, 2)], [(1, ("auth", "me"))], [(2, 1)], 7⟩
    ∧ startup uz_tables [("auth", "me")] "Admin" "admin"
        ⟨[(6, "admin")], [(2, "admin"), (3, "user"), (4, "teacher"), (5, "student")],
         [(6, 2)], [(1, ("auth", "me"))], [(2, 1)], 7⟩
      = .error "Username already exists" := by
  constructor
  · decide
  · decide

set_option maxHeartbeats 20000000 in
/-- Witness for the amended C7: a normalization-fixed admin username
("admin"), starting from the empty database with one registered
permission. -/
theorem startup_idempotent_spec_witness :
    startup uz_tables [("auth", "me")] "admin" "admin"
        ⟨[(6, "admin")], [(2, "admin"), (3, "user"), (4, "teacher"), (5, "student")],
         [(6, 2)], [(1, ("auth", "me"))], [(2, 1)], 7⟩
      = .ok ⟨[(6, "admin")], [(2, "admin"), (3, "user"), (4, "teacher"), (5, "student")],
         [(6, 2)], [(1, ("auth", "me"))], [(2, 1)], 7⟩
    ∧ (((⟨[(6, "admin")], [(2, "admin"), (3, "user"), (4, "teacher"), (5, "student")],
         [(6, 2)], [(1, ("auth", "me"))], [(2, 1)], 7⟩ : BootDb)).users.map Prod.snd).count
        "admin" = 1 := by
  have h := startup_idempotent_spec uz_tables [("auth", "me")] "admin" "admin"
    ⟨[], [], [], [], [], 1⟩
    ⟨[(6, "admin")], [(2, "admin"), (3, "user"), (4, "teacher"), (5, "student")],
     [(6, 2)], [(1, ("auth", "me"))], [(2, 1)], 7⟩
    (by constructor <;> simp) (by decide) (by decide)
  exact ⟨h.1, h.2.2.1⟩

/-! ## Text-normalization idempotence (C8) -/

set_option maxHeartbeats 20000000 in
/-- C8, refuted (code bug): `normalize_str` is NOT idempotent.  The
code lower-cases BEFORE it NFKD-decomposes, so the decomposition can
reintroduce capitals a second pass would lower: the trade-mark sign
`™` (U+2122) decomposes to the capitals `TM`, giving
`normalize_str "™" = "TM"` but `normalize_str (normalize_str "™") =
"tm"`, while the intended Uzbek inputs do reach fixed points
(`"O‘TKIR!!!" ↦ "o'tkir"`, `"  Shoxrux   " ↦ "shoxrux"`, both fixed
by a second pass). -/
theorem normalize_str_not_idempotent_bug :
    normalize_str uz_tables (String.mk [Char.ofNat 0x2122]) = "TM"
    ∧ normalize_str uz_tables
        (normalize_str uz_tables (String.mk [Char.ofNat 0x2122])) = "tm"
    ∧ normalize_str uz_tables
        (normalize_str uz_tables (String.mk [Char.ofNat 0x2122]))
      ≠ normalize_str uz_tables (String.mk [Char.ofNat 0x2122])
    ∧ normalize_str uz_tables "  O‘TKIR!!!  " = "o'tkir"
    ∧ normalize_str uz_tables (normalize_str uz_tables "  O‘TKIR!!!  ")
      = normalize_str uz_tables "  O‘TKIR!!!  "
    ∧ normalize_str uz_tables "  Shoxrux   " = "shoxrux"
    ∧ normalize_str uz_tables (normalize_str uz_tables "  Shoxrux   ")
      = normalize_str uz_tables "  Shoxrux   " := by
  refine ⟨?_, ?_, ?_, ?_, ?_, ?_, ?_⟩ <;> decide
